import Mathlib

/-!
Verification of the HireLens candidate-evaluation pipeline.

This file gives a shallow embedding of the core scoring services
(feature extraction, ATS simulation, recruiter evaluation, interview
readiness, score aggregation with signal compounding, recommendation
ranking, explainability, orchestration) and proves properties about them.

Modelling conventions:
- Python floats are modelled as rationals; every arithmetic operation used
  by the code (+, -, *, /, min, max, comparisons, round to 2 decimals) is
  exact on the values the code produces.
- Python strings are modelled as Lean strings, and the string operations
  (lower, strip, split, substring search) are re-implemented structurally
  over the character list so that concrete inputs evaluate inside proofs.
- Python dicts that are used in insertion order are modelled as
  association lists with an update-or-append write operation, mirroring
  dict assignment semantics.
- Dataclasses become structures with the same field names; a field typed
  Optional becomes an Option.
-/

namespace HireLens

/-! ## Small helpers shared by the embedded services -/

/-- Python round(x, 2): round to 2 decimal places.  (Python uses
round-half-even on binary floats; every tie-relevant value in this code
base already has at most 2 decimals, where all rounding rules agree.) -/
def round2 (x : ℚ) : ℚ := (round (x * 100) : ℚ) / 100

/-- Python round(x, 1), used by string formatting with one decimal. -/
def round1 (x : ℚ) : ℚ := (round (x * 10) : ℚ) / 10

/-- Python str.lower(), character by character. -/
def pyLower (s : String) : String := String.mk (s.data.map Char.toLower)

/-- Helper for pyStrip: drop leading whitespace from a character list. -/
def dropWs (cs : List Char) : List Char := cs.dropWhile Char.isWhitespace

/-- Python str.strip(): remove leading and trailing whitespace. -/
def pyStrip (s : String) : String :=
  String.mk ((dropWs (dropWs s.data).reverse).reverse)

/-- Does the second list occur as a prefix of the first? -/
def prefixAt : List Char → List Char → Bool
  | _, [] => true
  | [], _ :: _ => false
  | c :: cs, d :: ds => (c == d) && prefixAt cs ds

/-- Helper for containsSub: does the needle occur in some suffix? -/
def containsSubAux (needle : List Char) : List Char → Bool
  | [] => prefixAt [] needle
  | c :: cs => prefixAt (c :: cs) needle || containsSubAux needle cs

/-- Python "needle in hay" substring test. -/
def containsSub (hay needle : String) : Bool :=
  containsSubAux needle.data hay.data

/-- Helper for pyWordCount: count whitespace-separated words;
the flag records whether the previous character was a non-space. -/
def wordRuns : List Char → Bool → Nat
  | [], _ => 0
  | c :: cs, inWord =>
    if c.isWhitespace then wordRuns cs false
    else (if inWord then 0 else 1) + wordRuns cs true

/-- Python len(s.split()): the number of whitespace-separated words. -/
def pyWordCount (s : String) : Nat := wordRuns s.data false

/-- Python sep.join(l) string joining. -/
def joinSep (sep : String) : List String → String
  | [] => ""
  | [x] => x
  | x :: y :: rest => x ++ sep ++ joinSep sep (y :: rest)

/-- Python str slicing s[:n] (by characters). -/
def strTake (s : String) (n : Nat) : String := String.mk (s.data.take n)

/-- Helper for splitOnChar, accumulating the current fragment. -/
def splitOnCharAux (sep : Char) : List Char → List Char → List String
  | [], acc => [String.mk acc.reverse]
  | c :: cs, acc =>
    if c == sep then String.mk acc.reverse :: splitOnCharAux sep cs []
    else splitOnCharAux sep cs (c :: acc)

/-- Python s.split(sep) for a single-character separator (keeps empty
fragments). -/
def splitOnChar (sep : Char) (s : String) : List String := splitOnCharAux sep s.data []

/-- Python dict assignment d[k] = v on an insertion-ordered dict:
update in place if the key exists, else append. -/
def dictSet (m : List (String × String)) (k v : String) : List (String × String) :=
  if m.any (fun p => p.1 == k) then m.map (fun p => if p.1 == k then (k, v) else p)
  else m ++ [(k, v)]

/-- Key membership in an insertion-ordered dict. -/
def dictHas (m : List (String × String)) (k : String) : Bool :=
  m.any (fun p => p.1 == k)

/-- Python truthiness of an Optional[str]: None and "" are falsy. -/
def optStrTruthy : Option String → Bool
  | none => false
  | some s => !(s == "")

/-- Python truthiness of an Optional[float]: None and 0.0 are falsy. -/
def optQTruthy : Option ℚ → Bool
  | none => false
  | some q => !(q == 0)

/-- Render a natural number in decimal (Nat.repr, structurally). -/
def natToStr (n : Nat) : String := toString n

/-- Python f-string formatting x:.1f for the nonnegative values the code
formats (scores and month counts); one digit after the decimal point. -/
def formatFix1 (x : ℚ) : String :=
  let n : ℤ := round (x * 10)
  let sign := if n < 0 then "-" else ""
  let m := n.natAbs
  sign ++ natToStr (m / 10) ++ "." ++ natToStr (m % 10)

/-- Python f-string formatting x:.1% (percentage with one decimal). -/
def formatPct1 (x : ℚ) : String := formatFix1 (x * 100) ++ "%"

/-! ## Parsed input structures (src/services/parsing/parsing_types.py)

Work-experience and education entries are Dict[str, Any] in the source;
they are modelled as records of the keys the core actually reads, with
Option for keys that may be absent (dict.get).  The isinstance guards of
the source are vacuous on this typed model and are noted where they occur.
-/

/-- One work_experience entry, with the keys read by the services. -/
structure ParsedJob where
  title : Option String := none
  position : Option String := none
  start_date : Option String := none
  end_date : Option String := none
  description : Option String := none
  achievements : Option (List String) := none
deriving DecidableEq, Repr

/-- One education entry, with the key read by the services. -/
structure ParsedEdu where
  degree : Option String := none
deriving DecidableEq, Repr

/-- ParsedResumeInternal (fields the core reads). -/
structure ParsedResumeInternal where
  name : Option String := none
  email : Option String := none
  phone : Option String := none
  location : Option String := none
  work_experience : List ParsedJob := []
  education : List ParsedEdu := []
  skills : List String := []
deriving DecidableEq, Repr

/-- ParsedJobDescriptionInternal (fields the core reads). -/
structure ParsedJobDescriptionInternal where
  title : Option String := none
  required_skills : List String := []
  preferred_skills : List String := []
  required_experience_years : Option ℚ := none
  required_education : Option String := none
deriving DecidableEq, Repr

/-! ## Feature extraction (src/services/features) -/

/-- QuantitativeFeatures (feature_types.py). -/
structure QuantitativeFeatures where
  years_experience : Option ℚ := none
  skills_count : Option Nat := none
  keyword_match_count : Option Nat := none
  resume_length_words : Option Nat := none
deriving DecidableEq, Repr

/-- CategoricalFeatures (feature_types.py). -/
structure CategoricalFeatures where
  has_required_skills : Option Bool := none
  has_required_degree : Option Bool := none
deriving DecidableEq, Repr

/-- FeatureVectorInternal (feature_types.py); computation_method is an
insertion-ordered dict. -/
structure FeatureVectorInternal where
  quantitative : QuantitativeFeatures := {}
  categorical : CategoricalFeatures := {}
  missing_features : List String := []
  computation_method : List (String × String) := []
deriving DecidableEq, Repr

namespace FeatureExtractor

/-- _compute_skills_count.  The source guards on
(parsed_resume.skills is not None); the dataclass field is a non-optional
List[str], so the None branch is unreachable in the typed model. -/
def compute_skills_count (r : ParsedResumeInternal) (fv : FeatureVectorInternal) :
    Nat × FeatureVectorInternal :=
  (r.skills.length,
   { fv with computation_method := dictSet fv.computation_method "skills_count" "deterministic_rule" })

/-- _compute_keyword_match_count: count of required skills present in the
resume skills, case-insensitively; missing when either list is empty. -/
def compute_keyword_match_count (r : ParsedResumeInternal)
    (jd : ParsedJobDescriptionInternal) (fv : FeatureVectorInternal) :
    Nat × FeatureVectorInternal :=
  if r.skills = [] ∨ jd.required_skills = [] then
    (0, { fv with missing_features := fv.missing_features ++ ["keyword_match_count"] })
  else
    let resume_skills_lower := r.skills.map pyLower
    let required_skills_lower := jd.required_skills.map pyLower
    (required_skills_lower.countP (fun s => resume_skills_lower.contains s),
     { fv with computation_method := dictSet fv.computation_method "keyword_match_count" "deterministic_rule" })

/-- _compute_resume_length_words: total word count of the job description
texts; missing when there is no work experience or the count is zero. -/
def compute_resume_length_words (r : ParsedResumeInternal) (fv : FeatureVectorInternal) :
    Nat × FeatureVectorInternal :=
  if r.work_experience ≠ [] then
    let word_count := (r.work_experience.map (fun e => pyWordCount (e.description.getD ""))).sum
    if word_count > 0 then
      (word_count,
       { fv with computation_method := dictSet fv.computation_method "resume_length_words" "deterministic_rule" })
    else
      (0, { fv with missing_features := fv.missing_features ++ ["resume_length_words"] })
  else
    (0, { fv with missing_features := fv.missing_features ++ ["resume_length_words"] })

/-- _compute_years_experience: 12 months per entry having both dates
(truthy strings); always marked computed when work experience exists. -/
def compute_years_experience (r : ParsedResumeInternal) (fv : FeatureVectorInternal) :
    ℚ × FeatureVectorInternal :=
  if r.work_experience = [] then
    (0, { fv with missing_features := fv.missing_features ++ ["years_experience"] })
  else
    let total_months : Nat :=
      (r.work_experience.map (fun e =>
        if optStrTruthy e.start_date && optStrTruthy e.end_date then 12 else 0)).sum
    let years : ℚ := if total_months > 0 then (total_months : ℚ) / 12 else 0
    (years,
     { fv with computation_method := dictSet fv.computation_method "years_experience" "deterministic_heuristic" })

/-- _compute_has_required_skills: all required skills present
case-insensitively; missing when either list is empty. -/
def compute_has_required_skills (r : ParsedResumeInternal)
    (jd : ParsedJobDescriptionInternal) (fv : FeatureVectorInternal) :
    Bool × FeatureVectorInternal :=
  if r.skills = [] ∨ jd.required_skills = [] then
    (false, { fv with missing_features := fv.missing_features ++ ["has_required_skills"] })
  else
    let resume_skills_lower := r.skills.map pyLower
    let required_skills_lower := jd.required_skills.map pyLower
    (required_skills_lower.all (fun s => resume_skills_lower.contains s),
     { fv with computation_method := dictSet fv.computation_method "has_required_skills" "deterministic_rule" })

/-- _compute_has_required_degree.  Note the early return when the resume
has no education entries: in that branch the source records the feature
neither as computed nor as missing. -/
def compute_has_required_degree (r : ParsedResumeInternal)
    (jd : ParsedJobDescriptionInternal) (fv : FeatureVectorInternal) :
    Bool × FeatureVectorInternal :=
  if !optStrTruthy jd.required_education then
    (false, { fv with missing_features := fv.missing_features ++ ["has_required_degree"] })
  else if r.education = [] then
    (false, fv)
  else
    let required_edu_lower := pyLower (jd.required_education.getD "")
    (r.education.any (fun e => containsSub (pyLower (e.degree.getD "")) required_edu_lower),
     { fv with computation_method := dictSet fv.computation_method "has_required_degree" "deterministic_rule" })

/-- FeatureExtractor.extract: computes the six features in source order,
threading the metadata (missing_features, computation_method) through the
helpers exactly as the mutable vector is threaded in the source.  The
source assigns each value to the vector right after its helper returns;
since no helper reads the value fields, collecting the assignments at the
end yields the same record. -/
def extract (r : ParsedResumeInternal) (jd : ParsedJobDescriptionInternal) :
    FeatureVectorInternal :=
  let fv0 : FeatureVectorInternal := {}
  let p1 := compute_skills_count r fv0
  let p2 := compute_keyword_match_count r jd p1.2
  let p3 := compute_resume_length_words r p2.2
  let p4 := compute_years_experience r p3.2
  let p5 := compute_has_required_skills r jd p4.2
  let p6 := compute_has_required_degree r jd p5.2
  { p6.2 with
    quantitative :=
      { skills_count := some p1.1
        keyword_match_count := some p2.1
        resume_length_words := some p3.1
        years_experience := some p4.1 }
    categorical :=
      { has_required_skills := some p5.1
        has_required_degree := some p6.1 } }

end FeatureExtractor

/-! ## ATS simulation (src/services/ats) -/

/-- ATSRequiredFieldsStatus (ats_types.py). -/
structure ATSRequiredFieldsStatus where
  email : Bool := false
  phone : Bool := false
  work_history : Bool := false
  education : Bool := false
  all_present : Bool := false
deriving DecidableEq, Repr

/-- ATSHardFilters (ats_types.py): tri-state filters. -/
structure ATSHardFilters where
  experience_met : Option Bool := none
  education_met : Option Bool := none
  certifications_met : Option Bool := none
  all_met : Option Bool := none
deriving DecidableEq, Repr

/-- MatchedKeyword (ats_types.py). -/
structure MatchedKeyword where
  keyword : String
  location : String
  weight : ℚ
deriving DecidableEq, Repr

/-- ATSKeywordBreakdown (ats_types.py). -/
structure ATSKeywordBreakdown where
  matched_keywords : List MatchedKeyword := []
  missing_keywords : List String := []
  total_required : Nat := 0
  total_matched : Nat := 0
deriving DecidableEq, Repr

/-- ATSResultInternal (ats_types.py). -/
structure ATSResultInternal where
  keyword_match_percentage : ℚ := 0
  compatibility_score : ℚ := 0
  required_fields_status : ATSRequiredFieldsStatus := {}
  hard_filters : Option ATSHardFilters := none
  keyword_breakdown : ATSKeywordBreakdown := {}
  rejection_reasons : List String := []
  ats_type : Option String := none
deriving DecidableEq, Repr

namespace ATSSimulator

/-- _check_required_fields: presence booleans plus the rejection reasons
the check appends (returned as the new reasons list). -/
def check_required_fields (r : ParsedResumeInternal) (reasons : List String) :
    ATSRequiredFieldsStatus × List String :=
  let email := match r.email with
    | none => false
    | some s => !(pyStrip s == "")
  let phone := match r.phone with
    | none => false
    | some s => !(pyStrip s == "")
  let work_history := r.work_experience.length > 0
  let education := r.education.length > 0
  let status : ATSRequiredFieldsStatus :=
    { email := email, phone := phone, work_history := work_history,
      education := education, all_present := email && phone && work_history }
  let reasons := if !email then reasons ++ ["Missing required field: email"] else reasons
  let reasons := if !phone then reasons ++ ["Missing required field: phone"] else reasons
  let reasons := if !work_history then reasons ++ ["Missing required field: work history"] else reasons
  (status, reasons)

/-- _check_hard_filters: copy defined tri-state features into filters, and
AND-reduce over the filters that are defined. -/
def check_hard_filters (fv : FeatureVectorInternal) (reasons : List String) :
    ATSHardFilters × List String :=
  let filters0 : ATSHardFilters := {}
  let p1 := match fv.categorical.has_required_skills with
    | some b =>
        ({ filters0 with experience_met := some b },
         if !b then reasons ++ ["Hard filter failed: missing required skills"] else reasons)
    | none => (filters0, reasons)
  let p2 := match fv.categorical.has_required_degree with
    | some b =>
        ({ p1.1 with education_met := some b },
         if !b then p1.2 ++ ["Hard filter failed: missing required education"] else p1.2)
    | none => p1
  let filters := p2.1
  let filters :=
    match filters.experience_met, filters.education_met with
    | some e, some d => { filters with all_met := some (e && d) }
    | some e, none => { filters with all_met := some e }
    | none, some d => { filters with all_met := some d }
    | none, none => filters
  (filters, p2.2)

/-- _compute_keyword_matching: local case-insensitive matching of required
skills against the resume skills, with the feature vector's
keyword_match_count overriding the local total when it is defined. -/
def compute_keyword_matching (r : ParsedResumeInternal)
    (jd : ParsedJobDescriptionInternal) (fv : FeatureVectorInternal)
    (reasons : List String) : ATSKeywordBreakdown × List String :=
  let breakdown0 : ATSKeywordBreakdown := { total_required := jd.required_skills.length }
  if breakdown0.total_required = 0 then (breakdown0, reasons)
  else
    let resume_skills_lower := r.skills.map pyLower
    let matched := (jd.required_skills.filter
        (fun k => resume_skills_lower.contains (pyLower k))).map
        (fun k => ({ keyword := k, location := "skills", weight := 1 } : MatchedKeyword))
    let missing := jd.required_skills.filter
        (fun k => !resume_skills_lower.contains (pyLower k))
    let breakdown := { breakdown0 with
      matched_keywords := matched, missing_keywords := missing,
      total_matched := matched.length }
    let breakdown := match fv.quantitative.keyword_match_count with
      | some n => { breakdown with total_matched := n }
      | none => breakdown
    if breakdown.total_matched < breakdown.total_required then
      let missing_count := breakdown.total_required - breakdown.total_matched
      (breakdown, reasons ++ ["Missing " ++ natToStr missing_count ++ " required keyword(s): " ++
        joinSep ", " (missing.take 5)])
    else (breakdown, reasons)

/-- _calculate_keyword_match_percentage: 100.0 on an empty requirement,
else matched/required*100 rounded to 2 decimals. -/
def calculate_keyword_match_percentage (breakdown : ATSKeywordBreakdown) : ℚ :=
  if breakdown.total_required = 0 then 100
  else round2 ((breakdown.total_matched : ℚ) / (breakdown.total_required : ℚ) * 100)

/-- _calculate_compatibility_score: 100 minus the field, hard-filter and
keyword penalties, rounded to 2 decimals, floored at 0. -/
def calculate_compatibility_score (result : ATSResultInternal) : ℚ :=
  let score : ℚ := 100
  let score := if !result.required_fields_status.email then score - 25 else score
  let score := if !result.required_fields_status.phone then score - 25 else score
  let score := if !result.required_fields_status.work_history then score - 30 else score
  -- (if result.hard_filters:) a dataclass instance is always truthy, so the
  -- guard only distinguishes None from a filters record
  let score := match result.hard_filters with
    | none => score
    | some hf =>
      let score := if hf.experience_met = some false then score - 20 else score
      if hf.education_met = some false then score - 15 else score
  let score :=
    if result.keyword_match_percentage < 60 then
      score - min (60 - result.keyword_match_percentage) 20
    else score
  max 0 (round2 score)

/-- ATSSimulator.simulate: required fields, hard filters, keyword
matching, then the compatibility score, threading rejection_reasons. -/
def simulate (r : ParsedResumeInternal) (jd : ParsedJobDescriptionInternal)
    (fv : FeatureVectorInternal) (ats_type : String := "generic") :
    ATSResultInternal :=
  let result0 : ATSResultInternal := { ats_type := some ats_type }
  let f := check_required_fields r result0.rejection_reasons
  let h := check_hard_filters fv f.2
  let k := compute_keyword_matching r jd fv h.2
  let result := { result0 with
    required_fields_status := f.1
    hard_filters := some h.1
    keyword_breakdown := k.1
    rejection_reasons := k.2
    keyword_match_percentage := calculate_keyword_match_percentage k.1 }
  { result with compatibility_score := calculate_compatibility_score result }

end ATSSimulator

/-! ## Recruiter evaluation (src/services/recruiter) -/

/-- EmploymentGap (recruiter_types.py). -/
structure EmploymentGap where
  start_date : String
  end_date : String
  duration_months : ℚ
deriving DecidableEq, Repr

/-- RecruiterRedFlag (recruiter_types.py). -/
structure RecruiterRedFlag where
  type : String
  severity : String
  description : String
  evidence : Option String := none
deriving DecidableEq, Repr

/-- CareerProgressionAnalysis (recruiter_types.py). -/
structure CareerProgressionAnalysis where
  trajectory : String
  promotions_count : Option Nat := none
  responsibility_increase : Option Bool := none
  title_progression : List String := []
deriving DecidableEq, Repr

/-- JobStabilityAnalysis (recruiter_types.py). -/
structure JobStabilityAnalysis where
  average_tenure_months : ℚ
  short_tenure_jobs_count : Nat
  employment_gaps : List EmploymentGap := []
deriving DecidableEq, Repr

/-- RecruiterResultInternal (recruiter_types.py). -/
structure RecruiterResultInternal where
  evaluation_score : ℚ := 0
  career_progression_score : ℚ := 0
  job_stability_score : ℚ := 0
  red_flags : List RecruiterRedFlag := []
  career_progression_analysis : Option CareerProgressionAnalysis := none
  job_stability_analysis : Option JobStabilityAnalysis := none
  recruiter_persona : Option String := none
deriving DecidableEq, Repr

namespace RecruiterEvaluator

/-- (job.get("title") or job.get("position") or "") with Python string
truthiness. -/
def jobTitle (j : ParsedJob) : String :=
  if optStrTruthy j.title then j.title.getD ""
  else if optStrTruthy j.position then j.position.getD ""
  else ""

/-- _analyze_career_progression. -/
def analyze_career_progression (r : ParsedResumeInternal) : CareerProgressionAnalysis :=
  if r.work_experience.length < 2 then { trajectory := "insufficient_data" }
  else
    let titles := (r.work_experience.map jobTitle).filter (fun t => !(t == ""))
    let promotions := if titles.length ≥ 2 then titles.length - 1 else 0
    let unique_titles := titles.dedup.length
    { trajectory :=
        if titles.length ≥ 2 then
          if unique_titles = titles.length then "upward"
          else if unique_titles = 1 then "lateral"
          else "mixed"
        else "insufficient_data"
      promotions_count := if promotions > 0 then some promotions else none
      responsibility_increase := some (r.work_experience.length > 1)
      title_progression := titles }

/-- _compute_career_progression_score; the promotions branch uses Python
truthiness of Optional[int] (None and 0 falsy). -/
def compute_career_progression_score (analysis : CareerProgressionAnalysis) : ℚ :=
  if analysis.trajectory = "insufficient_data" then 0.5
  else
    let score : ℚ := 0.5
    let score :=
      if analysis.trajectory = "upward" then score + 0.3
      else if analysis.trajectory = "mixed" then score + 0.1
      else if analysis.trajectory = "lateral" then score + 0
      else if analysis.trajectory = "downward" then score - 0.2
      else score
    let score := match analysis.promotions_count with
      | some n => if n ≠ 0 ∧ n > 0 then score + min 0.2 ((n : ℚ) * 0.05) else score
      | none => score
    let score := match analysis.responsibility_increase with
      | some b => if b then score + 0.1 else score
      | none => score
    max 0 (min 1 score)

/-- _analyze_job_stability: the documented placeholder (24-month average
whenever any work history exists, no short tenures, no gaps). -/
def analyze_job_stability (r : ParsedResumeInternal) : JobStabilityAnalysis :=
  if r.work_experience = [] then
    { average_tenure_months := 0, short_tenure_jobs_count := 0, employment_gaps := [] }
  else
    { average_tenure_months := if r.work_experience.length > 0 then 24 else 0
      short_tenure_jobs_count := 0
      employment_gaps := [] }

/-- _compute_job_stability_score: the score plus the red flags the check
appends (returned as the new red-flag list). -/
def compute_job_stability_score (analysis : JobStabilityAnalysis)
    (flags : List RecruiterRedFlag) : ℚ × List RecruiterRedFlag :=
  let score : ℚ := 1
  let p1 :=
    if analysis.average_tenure_months < 12 then
      let penalty := (12 - analysis.average_tenure_months) / 12
      (score - min 0.4 (penalty * 0.4),
       flags ++ [{ type := "job_hopping",
                   severity := if analysis.average_tenure_months < 6 then "high" else "medium",
                   description := "Average job tenure is " ++ formatFix1 analysis.average_tenure_months ++
                     " months, indicating potential job hopping pattern.",
                   evidence := some ("Average tenure: " ++ formatFix1 analysis.average_tenure_months ++ " months") }])
    else (score, flags)
  let p2 :=
    if analysis.short_tenure_jobs_count > 0 then
      (p1.1 - min 0.3 ((analysis.short_tenure_jobs_count : ℚ) * 0.1),
       p1.2 ++ [{ type := "job_hopping",
                  severity := if analysis.short_tenure_jobs_count = 1 then "medium" else "high",
                  description := natToStr analysis.short_tenure_jobs_count ++
                    " job(s) with tenure less than 12 months.",
                  evidence := some ("Short tenure jobs: " ++ natToStr analysis.short_tenure_jobs_count) }])
    else p1
  let p3 :=
    if analysis.employment_gaps ≠ [] then
      let total_gap_months := (analysis.employment_gaps.map (fun g => g.duration_months)).sum
      if total_gap_months > 6 then
        (p2.1 - min 0.3 ((total_gap_months - 6) / 12),
         p2.2 ++ [{ type := "employment_gap",
                    severity := if total_gap_months > 12 then "high" else "medium",
                    description := "Employment gap(s) totaling " ++ formatFix1 total_gap_months ++
                      " months detected.",
                    evidence := some ("Total gap duration: " ++ formatFix1 total_gap_months ++ " months") }])
      else p2
    else p2
  (max 0 (min 1 p3.1), p3.2)

/-- _check_resume_quality: red flags for a very short or very long resume
and for no detected achievements/metrics. -/
def check_resume_quality (r : ParsedResumeInternal) (fv : FeatureVectorInternal)
    (flags : List RecruiterRedFlag) : List RecruiterRedFlag :=
  let resume_length := (fv.quantitative.resume_length_words).getD 0
  let flags :=
    if resume_length < 200 then
      flags ++ [{ type := "generic_resume", severity := "medium",
                  description := "Resume is very short, may lack detail or appear generic.",
                  evidence := some ("Resume length: " ++ natToStr resume_length ++ " words") }]
    else if resume_length > 1500 then
      flags ++ [{ type := "formatting_issues", severity := "low",
                  description := "Resume is very long, may be difficult to scan quickly.",
                  evidence := some ("Resume length: " ++ natToStr resume_length ++ " words") }]
    else flags
  let achievements_count : Nat :=
    (r.work_experience.map (fun j =>
      (match j.achievements with
       | some l => l.length
       | none => 0) +
      -- ("description" in job and job.get("description")): present and non-empty
      (if optStrTruthy j.description then
        (if (j.description.getD "").data.any Char.isDigit then 1 else 0)
       else 0))).sum
  if achievements_count = 0 then
    flags ++ [{ type := "generic_resume", severity := "medium",
                description := "Resume lacks quantifiable achievements or metrics.",
                evidence := some "No achievements with metrics detected" }]
  else flags

/-- _compute_evaluation_score. -/
def compute_evaluation_score (career_progression_score job_stability_score : ℚ)
    (red_flags : List RecruiterRedFlag) : ℚ :=
  let score : ℚ := 100
  let score := if career_progression_score < 0.5 then
      score - (0.5 - career_progression_score) * 30 else score
  let score := if job_stability_score < 0.5 then
      score - (0.5 - job_stability_score) * 40 else score
  let score := red_flags.foldl (fun s f =>
    if f.severity = "critical" then s - 20
    else if f.severity = "high" then s - 10
    else if f.severity = "medium" then s - 5
    else if f.severity = "low" then s - 2
    else s) score
  max 0 (min 100 (round2 score))

/-- RecruiterEvaluator.evaluate. -/
def evaluate (r : ParsedResumeInternal) (fv : FeatureVectorInternal)
    (recruiter_persona : String := "generic") : RecruiterResultInternal :=
  let career_analysis := analyze_career_progression r
  let career_progression_score := compute_career_progression_score career_analysis
  let stability_analysis := analyze_job_stability r
  let p := compute_job_stability_score stability_analysis []
  let red_flags := check_resume_quality r fv p.2
  { recruiter_persona := some recruiter_persona
    career_progression_analysis := some career_analysis
    career_progression_score := career_progression_score
    job_stability_analysis := some stability_analysis
    job_stability_score := p.1
    red_flags := red_flags
    evaluation_score := compute_evaluation_score career_progression_score p.1 red_flags }

end RecruiterEvaluator

/-! ## Interview readiness (src/services/interview)

The two regular expressions of _evaluate_defensibility and the two of
_extract_supporting_evidence are compiled to explicit character scanners.
Greedy quantifier backtracking is analysed away where it cannot change the
outcome (a shorter digit run always ends in front of another digit, which
none of the continuations accept).
-/

/-- Python regex word character (ASCII part of w). -/
def isWordChar (c : Char) : Bool := c.isAlphanum || c == '_'

/-- A word boundary sits before this suffix (next char not a word char). -/
def boundaryAt : List Char → Bool
  | [] => true
  | c :: _ => !isWordChar c

/-- Match a literal pattern case-insensitively, returning the rest. -/
def matchCI : List Char → List Char → Option (List Char)
  | cs, [] => some cs
  | [], _ :: _ => none
  | c :: cs, d :: ds => if c.toLower == d then matchCI cs ds else none

/-- Match a literal pattern exactly, returning the rest. -/
def matchEx : List Char → List Char → Option (List Char)
  | cs, [] => some cs
  | [], _ :: _ => none
  | c :: cs, d :: ds => if c == d then matchEx cs ds else none

/-- (million|thousand|k|m|b)b (case-insensitive) at this suffix. -/
def magnitudeAt (cs : List Char) : Bool :=
  ["million", "thousand", "k", "m", "b"].any (fun w =>
    match matchCI cs w.data with
    | some rest => boundaryAt rest
    | none => false)

/-- (years?|months?|days?)b (case-insensitive) at this suffix; the
optional s is greedy, and backtracking past it cannot help because the s
itself is a word character. -/
def timeSpanAt (cs : List Char) : Bool :=
  ["year", "month", "day"].any (fun w =>
    match matchCI cs w.data with
    | some rest =>
      match rest with
      | [] => true
      | c :: rest2 => if c.toLower == 's' then boundaryAt rest2 else boundaryAt rest
    | none => false)

/-- One alternative of the metrics regex starts at this suffix:
digits+% | digits+.digits*% | $digits+[KMB]? | digits+ ws* magnitude-word |
digits+ ws* time-word (all case-insensitive). -/
def metricsAtPos (cs : List Char) : Bool :=
  (match cs with
   | c :: _ =>
     if c.isDigit then
       let r1 := cs.dropWhile Char.isDigit
       (match r1 with
        | '%' :: _ => true
        | '.' :: r2 =>
          (match r2.dropWhile Char.isDigit with
           | '%' :: _ => true
           | _ => false)
        | _ => false) ||
       (let r4 := r1.dropWhile Char.isWhitespace
        magnitudeAt r4 || timeSpanAt r4)
     else false
   | [] => false) ||
  (match cs with
   | '$' :: c2 :: _ => c2.isDigit
   | _ => false)

/-- re.search of the metrics regex: some position matches. -/
def hasMetricsAux : List Char → Bool
  | [] => false
  | c :: cs => metricsAtPos (c :: cs) || hasMetricsAux cs

/-- has_metrics of _evaluate_defensibility. -/
def hasMetrics (text : String) : Bool := hasMetricsAux text.data

/-- The concrete action-verb alternation of _evaluate_defensibility. -/
def actionWords : List String :=
  ["built", "developed", "created", "implemented", "designed", "optimized",
   "reduced", "increased", "improved", "managed", "led", "achieved", "delivered"]

/-- An action verb with a trailing word boundary starts at this suffix. -/
def actionAt (cs : List Char) : Bool :=
  actionWords.any (fun w =>
    match matchEx cs w.data with
    | some rest => boundaryAt rest
    | none => false)

/-- Scan for b(verb)b; the flag records whether the previous character
was a word character (so a leading boundary is required). -/
def hasActionsAux : List Char → Bool → Bool
  | [], _ => false
  | c :: cs, prevIsWord =>
    (!prevIsWord && actionAt (c :: cs)) || hasActionsAux cs (isWordChar c)

/-- has_specific_actions of _evaluate_defensibility (searched on the
already-lowercased text). -/
def hasSpecificActions (text_lower : String) : Bool := hasActionsAux text_lower.data false

/-- The vague-language markers of _evaluate_defensibility. -/
def vagueIndicators : List String :=
  ["helped", "assisted", "worked on", "involved in", "contributed to",
   "part of", "responsible for"]

/-- One percentage match of d+.?d*% at the head of this suffix, with the
matched text and the remaining suffix. -/
def pctMatchAt (cs : List Char) : Option (String × List Char) :=
  match cs with
  | [] => none
  | c :: _ =>
    if c.isDigit then
      let d1 := cs.takeWhile Char.isDigit
      let r1 := cs.dropWhile Char.isDigit
      match r1 with
      | '%' :: rest => some (String.mk (d1 ++ ['%']), rest)
      | '.' :: r2 =>
        let d2 := r2.takeWhile Char.isDigit
        let r3 := r2.dropWhile Char.isDigit
        (match r3 with
         | '%' :: rest => some (String.mk (d1 ++ '.' :: (d2 ++ ['%'])), rest)
         | _ => none)
      | _ => none
    else none

/-- re.findall of the percentage regex (fuel is the list length; every
step consumes at least one character). -/
def pctScanAux : Nat → List Char → List String
  | 0, _ => []
  | _ + 1, [] => []
  | fuel + 1, c :: cs =>
    match pctMatchAt (c :: cs) with
    | some p => p.1 :: pctScanAux fuel p.2
    | none => pctScanAux fuel cs

/-- Count maximal digit runs (flag: previous character was a digit). -/
def digitRunsAux : List Char → Bool → Nat
  | [], _ => 0
  | c :: cs, prev =>
    if c.isDigit then (if prev then 0 else 1) + digitRunsAux cs true
    else digitRunsAux cs false

namespace InterviewReadinessEvaluator

/-- _extract_supporting_evidence.  The second findall pattern is
d+[KMB]?|d+ ws* (magnitude-or-time-word)b with one capture group around
the word list; its first alternative already matches at every digit run
(the [KMB] suffix is optional), so the ordered alternation never reaches
the second branch, the group never participates, and Python findall
appends one empty string per maximal digit run.  Whether the optional
K/M/B letter is consumed cannot move the start of the next digit run. -/
def extract_supporting_evidence (text : String) : List String :=
  pctScanAux text.data.length text.data ++
    List.replicate (digitRunsAux text.data false) ""

/-- _evaluate_defensibility: (defensibility_score, depth_indicator). -/
def evaluate_defensibility (text : String) : ℚ × String :=
  let text_lower := pyLower text
  let has_metrics := hasMetrics text
  let has_specific_actions := hasSpecificActions text_lower
  let is_vague := vagueIndicators.any (fun w => containsSub text_lower w)
  if has_metrics then (0.9, "deep")
  else if has_specific_actions && !is_vague then (0.7, "moderate")
  else if is_vague || pyWordCount text < 5 then (0.3, "surface")
  else (0.5, "moderate")

/-- _assess_consistency_risk (derived solely from defensibility). -/
def assess_consistency_risk (defensibility_score : ℚ) : Option String :=
  if defensibility_score < 0.4 then some "high"
  else if defensibility_score < 0.6 then some "medium"
  else none

end InterviewReadinessEvaluator

/-- ResumeClaim (interview_types.py). -/
structure ResumeClaim where
  claim_text : String
  claim_type : String
  defensibility_score : ℚ
  depth_indicator : String
  consistency_risk : Option String := none
  supporting_evidence : List String := []
deriving DecidableEq, Repr

/-- PredictedInterviewQuestion (interview_types.py). -/
structure PredictedInterviewQuestion where
  question : String
  likelihood : ℚ
  question_type : String
  related_claim : Option String := none
  reasoning : Option String := none
deriving DecidableEq, Repr

/-- ConsistencyRisk (interview_types.py). -/
structure ConsistencyRisk where
  risk_type : String
  severity : String
  description : String
  related_claim : Option String := none
  mitigation_suggestion : Option String := none
deriving DecidableEq, Repr

/-- InterviewReadinessResultInternal (interview_types.py). -/
structure InterviewReadinessResultInternal where
  readiness_score : ℚ := 0
  resume_claims : List ResumeClaim := []
  predicted_questions : List PredictedInterviewQuestion := []
  consistency_risks : List ConsistencyRisk := []
deriving DecidableEq, Repr

/-- Split on any single bullet character.  The source splits on the regex
[bullet_dash_star] ws* | newline ws* [dash_bullet_star] ws*; the
whitespace the alternatives consume is removed from every fragment by the
strip that immediately follows, so splitting on the bare bullet
characters yields the same stripped fragments. -/
def splitBulletsAux : List Char → List Char → List String
  | [], acc => [String.mk acc.reverse]
  | c :: cs, acc =>
    if c == '•' || c == '-' || c == '*' then
      String.mk acc.reverse :: splitBulletsAux cs []
    else splitBulletsAux cs (c :: acc)

/-- Description split into bullet fragments. -/
def splitBullets (s : String) : List String := splitBulletsAux s.data []

namespace InterviewReadinessEvaluator

/-- _create_claim_from_text (the job argument is never read). -/
def create_claim_from_text (text claim_type : String) : ResumeClaim :=
  let p := evaluate_defensibility text
  { claim_text := text
    claim_type := claim_type
    defensibility_score := p.1
    depth_indicator := p.2
    consistency_risk := assess_consistency_risk p.1
    supporting_evidence := extract_supporting_evidence text }

/-- _extract_resume_claims: achievement-list claims and bullet claims from
every job, then the skill fallback when no claim was found at all. -/
def extract_resume_claims (r : ParsedResumeInternal) : List ResumeClaim :=
  let claims := (r.work_experience.map (fun job =>
    let achievements := job.achievements.getD []
    let fromAchievements := (achievements.filter (fun a => !(pyStrip a == ""))).map
      (fun a => create_claim_from_text (pyStrip a) "achievement")
    let description := job.description.getD ""
    let fromDescription :=
      if !(pyStrip description == "") then
        (((splitBullets description).map pyStrip).filter
          (fun b => !(b == "") && b.length > 10)).map
          (fun b => create_claim_from_text b "achievement")
      else []
    fromAchievements ++ fromDescription)).flatten
  if claims = [] ∧ r.skills ≠ [] then
    ((r.skills.take 5).filter (fun s => !(s == "") && !(pyStrip s == ""))).map
      (fun s =>
        { claim_text := "Proficient in " ++ s
          claim_type := "skill"
          defensibility_score := 0.5
          depth_indicator := "surface"
          consistency_risk := some "medium"
          supporting_evidence := [] })
  else claims

/-- _predict_interview_questions: deep-dive, challenge and measurement
questions per risky claim, capped at 10 in generation order. -/
def predict_interview_questions (claims : List ResumeClaim) :
    List PredictedInterviewQuestion :=
  let questions := (claims.map (fun claim =>
    if claim.consistency_risk = some "high" ∨ claim.consistency_risk = some "medium" then
      [{ question := "Can you explain how you achieved: \x27" ++ strTake claim.claim_text 50 ++ "...\x27?"
         likelihood := if claim.consistency_risk = some "high" then 0.8 else 0.6
         question_type := "resume_deep_dive"
         related_claim := some (strTake claim.claim_text 100)
         reasoning := some ("Claim has " ++ (claim.consistency_risk.getD "") ++
           " consistency risk and may need clarification.") }] ++
      (if claim.defensibility_score < 0.5 then
        [{ question := "What challenges did you face while working on this?"
           likelihood := 0.7
           question_type := "behavioral"
           related_claim := some (strTake claim.claim_text 100)
           reasoning := some "Vague or low-defensibility claims often prompt challenge questions." }]
       else []) ++
      (if claim.supporting_evidence = [] then
        [{ question := "How did you measure the success of this achievement?"
           likelihood := 0.7
           question_type := "situational"
           related_claim := some (strTake claim.claim_text 100)
           reasoning := some "Claims without metrics often prompt measurement questions." }]
       else [])
    else [])).flatten
  questions.take 10

/-- Lowercased skills that occur in some job's combined
description-plus-achievements text. -/
def skillUsed (r : ParsedResumeInternal) (skill : String) : Bool :=
  r.work_experience.any (fun job =>
    let combined_text := (job.description.getD "") ++ " " ++
      joinSep " " (job.achievements.getD [])
    containsSub (pyLower combined_text) (pyLower skill))

/-- Keep first occurrences (model of Python set iteration for a set built
by inserting in a fixed order; within one process the order is fixed, and
first-insertion order is the canonical deterministic choice). -/
def dedupFirst : List String → List String
  | [] => []
  | x :: xs => x :: (dedupFirst xs).filter (fun y => !(y == x))

/-- _identify_consistency_risks: unused skills, vague claims, overstated
claims. -/
def identify_consistency_risks (r : ParsedResumeInternal)
    (claims : List ResumeClaim) : List ConsistencyRisk :=
  let unused_skills := (dedupFirst (r.skills.map pyLower)).filter
    (fun s => !((r.skills.filter (fun sk => skillUsed r sk)).map pyLower).contains s)
  let risks :=
    if unused_skills ≠ [] then
      [{ risk_type := "skill_depth_mismatch"
         severity := "medium"
         description := "Skills listed but not mentioned in work experience: " ++
           joinSep ", " (unused_skills.take 3)
         mitigation_suggestion := some "Be prepared to explain how you used these skills in your work." }]
    else []
  let risks := risks ++ (claims.map (fun claim =>
    if claim.supporting_evidence = [] ∧ claim.defensibility_score < 0.5 then
      [{ risk_type := "vague_claim"
         severity := if claim.defensibility_score < 0.4 then "high" else "medium"
         description := "Claim lacks specific evidence: \x27" ++ strTake claim.claim_text 60 ++ "...\x27"
         related_claim := some (strTake claim.claim_text 100)
         mitigation_suggestion := some "Prepare specific examples and metrics to support this claim." }]
    else [])).flatten
  risks ++ (claims.map (fun claim =>
    let broad_indicators := ["significant", "major", "huge", "massive", "dramatic", "revolutionary"]
    if broad_indicators.any (fun w => containsSub (pyLower claim.claim_text) w) then
      if claim.supporting_evidence = [] then
        [{ risk_type := "overstated_achievement"
           severity := "medium"
           description := "Broad impact statement without metrics: \x27" ++ strTake claim.claim_text 60 ++ "...\x27"
           related_claim := some (strTake claim.claim_text 100)
           mitigation_suggestion := some "Be ready to quantify the impact with specific numbers." }]
      else []
    else [])).flatten

/-- _compute_readiness_score. -/
def compute_readiness_score (result : InterviewReadinessResultInternal) : ℚ :=
  let score : ℚ := 100
  let score := result.resume_claims.foldl (fun s claim =>
    let s := if claim.consistency_risk = some "high" then s - 8
      else if claim.consistency_risk = some "medium" then s - 4
      else s
    if claim.defensibility_score < 0.4 then s - 5
    else if claim.defensibility_score < 0.6 then s - 2
    else s) score
  let score := result.consistency_risks.foldl (fun s risk =>
    if risk.severity = "high" then s - 10
    else if risk.severity = "medium" then s - 5
    else if risk.severity = "low" then s - 2
    else s) score
  max 0 (min 100 (round2 score))

/-- InterviewReadinessEvaluator.evaluate (the feature-vector argument is
accepted and never read, as in the source). -/
def evaluate (r : ParsedResumeInternal) (_fv : FeatureVectorInternal) :
    InterviewReadinessResultInternal :=
  let resume_claims := extract_resume_claims r
  let predicted_questions := predict_interview_questions resume_claims
  let consistency_risks := identify_consistency_risks r resume_claims
  let result : InterviewReadinessResultInternal :=
    { resume_claims := resume_claims
      predicted_questions := predicted_questions
      consistency_risks := consistency_risks }
  { result with readiness_score := compute_readiness_score result }

end InterviewReadinessEvaluator

/-! ## Scoring aggregation (src/services/scoring) -/

/-- StageProbabilities (scoring_types.py). -/
structure StageProbabilities where
  ats_pass : ℚ := 0
  recruiter_pass : ℚ := 0
  interview_pass : ℚ := 0
  offer : ℚ := 0
deriving DecidableEq, Repr

/-- SignalImpact (scoring_types.py). -/
structure SignalImpact where
  signal : String
  stages_affected : List String
  compound_effect : Option ℚ := none
deriving DecidableEq, Repr

/-- RiskFactor (scoring_types.py). -/
structure RiskFactor where
  factor : String
  stage : String
  impact_on_overall_probability : ℚ
  severity : String
  description : String
deriving DecidableEq, Repr

/-- ComponentContributions (scoring_types.py). -/
structure ComponentContributions where
  ats_contribution : Option ℚ := none
  recruiter_contribution : Option ℚ := none
  interview_contribution : Option ℚ := none
deriving DecidableEq, Repr

/-- SignalCompoundingSummary (scoring_types.py). -/
structure SignalCompoundingSummary where
  positive_signals : List SignalImpact := []
  negative_signals : List SignalImpact := []
deriving DecidableEq, Repr

/-- AggregatedScoreInternal (scoring_types.py). -/
structure AggregatedScoreInternal where
  overall_score : ℚ := 0
  stage_probabilities : StageProbabilities := {}
  risk_factors : List RiskFactor := []
  component_contributions : ComponentContributions := {}
  signal_compounding_summary : SignalCompoundingSummary := {}
deriving DecidableEq, Repr

namespace SignalCompoundingEngine

/-- _analyze_ats_influence: always returns a signal affecting
["ats", "recruiter"]. -/
def analyze_ats_influence (ats_result : ATSResultInternal)
    (_recruiter_result : RecruiterResultInternal) : SignalImpact :=
  let ats_score := ats_result.compatibility_score
  if ats_score ≥ 80 then
    { signal := "Strong ATS compatibility", stages_affected := ["ats", "recruiter"],
      compound_effect := some 0.05 }
  else if ats_score < 50 then
    { signal := "Weak ATS compatibility", stages_affected := ["ats", "recruiter"],
      compound_effect := some (-0.15) }
  else
    { signal := "Moderate ATS compatibility", stages_affected := ["ats", "recruiter"],
      compound_effect := some (-0.05) }

/-- _analyze_interview_dominance: None when no significant signal. -/
def analyze_interview_dominance (interview_result : InterviewReadinessResultInternal) :
    Option SignalImpact :=
  let readiness_score := interview_result.readiness_score
  let consistency_risks := interview_result.consistency_risks
  let high_risk_count := consistency_risks.countP (fun risk => risk.severity = "high")
  let critical_risk_count := consistency_risks.countP (fun risk => risk.severity = "critical")
  if critical_risk_count > 0 then
    some { signal := "Critical interview consistency risks detected",
           stages_affected := ["interview", "offer"], compound_effect := some (-0.40) }
  else if high_risk_count ≥ 2 then
    some { signal := "Multiple high-severity interview consistency risks",
           stages_affected := ["interview", "offer"], compound_effect := some (-0.25) }
  else if high_risk_count = 1 then
    some { signal := "High-severity interview consistency risk detected",
           stages_affected := ["interview", "offer"], compound_effect := some (-0.15) }
  else if readiness_score < 50 then
    some { signal := "Low interview readiness score",
           stages_affected := ["interview", "offer"], compound_effect := some (-0.20) }
  else if readiness_score ≥ 80 then
    some { signal := "High interview readiness score",
           stages_affected := ["interview", "offer"], compound_effect := some 0.10 }
  else none

/-- _analyze_risk_compounding: risk lists by severity, then the three
compounding rules. -/
def analyze_risk_compounding (ats_result : ATSResultInternal)
    (recruiter_result : RecruiterResultInternal)
    (interview_result : InterviewReadinessResultInternal) : List SignalImpact :=
  let critical_risks :=
    (if ats_result.compatibility_score < 40 then ["ATS compatibility score below 40"] else []) ++
    ((recruiter_result.red_flags.filter (fun f => f.severity = "critical")).map
      (fun f => "Recruiter red flag: " ++ f.type)) ++
    ((interview_result.consistency_risks.filter (fun risk => risk.severity = "critical")).map
      (fun risk => "Interview risk: " ++ risk.risk_type))
  let high_risks :=
    ((recruiter_result.red_flags.filter (fun f => f.severity = "high")).map
      (fun f => "Recruiter red flag: " ++ f.type)) ++
    ((interview_result.consistency_risks.filter (fun risk => risk.severity = "high")).map
      (fun risk => "Interview risk: " ++ risk.risk_type))
  let medium_risks :=
    (interview_result.consistency_risks.filter (fun risk => risk.severity = "medium")).map
      (fun risk => "Interview risk: " ++ risk.risk_type)
  (if critical_risks ≠ [] then
    [{ signal := "Critical risks detected: " ++ joinSep ", " (critical_risks.take 2)
       stages_affected := ["ats", "recruiter", "interview", "offer"]
       compound_effect := some (-0.35) }]
   else []) ++
  (if medium_risks.length ≥ 3 then
    [{ signal := "Multiple medium risks compound to high overall risk (" ++
         natToStr medium_risks.length ++ " risks)"
       stages_affected := ["recruiter", "interview", "offer"]
       compound_effect := some (-0.20) }]
   else []) ++
  (if high_risks.length ≥ 2 then
    [{ signal := "Multiple high-severity risks compound (" ++
         natToStr high_risks.length ++ " risks)"
       stages_affected := ["recruiter", "interview", "offer"]
       compound_effect := some (-0.25) }]
   else [])

/-- SignalCompoundingEngine.apply.  (if ats_impact:) a dataclass is always
truthy; the routing conditions use Python truthiness of the Optional
compound_effect (None and 0.0 falsy). -/
def apply (ats_result : ATSResultInternal) (recruiter_result : RecruiterResultInternal)
    (interview_result : InterviewReadinessResultInternal) : SignalCompoundingSummary :=
  let summary : SignalCompoundingSummary := {}
  let ats_impact := analyze_ats_influence ats_result recruiter_result
  let summary :=
    if optQTruthy ats_impact.compound_effect ∧ (ats_impact.compound_effect.getD 0) > 0 then
      { summary with positive_signals := summary.positive_signals ++ [ats_impact] }
    else
      { summary with negative_signals := summary.negative_signals ++ [ats_impact] }
  let summary :=
    match analyze_interview_dominance interview_result with
    | none => summary
    | some interview_impact =>
      if optQTruthy interview_impact.compound_effect ∧ (interview_impact.compound_effect.getD 0) < 0 then
        { summary with negative_signals := summary.negative_signals ++ [interview_impact] }
      else
        { summary with positive_signals := summary.positive_signals ++ [interview_impact] }
  let risk_impacts := analyze_risk_compounding ats_result recruiter_result interview_result
  { summary with negative_signals := summary.negative_signals ++ risk_impacts }

end SignalCompoundingEngine

namespace ScoreAggregator

/-- _calculate_base_probabilities. -/
def calculate_base_probabilities (ats_result : ATSResultInternal)
    (recruiter_result : RecruiterResultInternal)
    (interview_result : InterviewReadinessResultInternal) : StageProbabilities :=
  let ats_pass := max 0 (min 1 (ats_result.compatibility_score / 100))
  let recruiter_pass := max 0 (min 1 (recruiter_result.evaluation_score / 100))
  let interview_pass := max 0 (min 1 (interview_result.readiness_score / 100))
  let offer :=
    if interview_pass > 0.5 then 0.7 + (interview_pass - 0.5) * 0.4
    else interview_pass * 0.5
  { ats_pass := ats_pass, recruiter_pass := recruiter_pass,
    interview_pass := interview_pass, offer := max 0 (min 1 offer) }

/-- One positive signal applied to the stages it names, clamped above
(skipped entirely under Python falsiness of the effect). -/
def apply_positive_signal (p : StageProbabilities) (signal : SignalImpact) :
    StageProbabilities :=
  if optQTruthy signal.compound_effect then
    let e := signal.compound_effect.getD 0
    let p := if signal.stages_affected.contains "recruiter" then
        { p with recruiter_pass := min 1 (p.recruiter_pass + e) } else p
    let p := if signal.stages_affected.contains "interview" then
        { p with interview_pass := min 1 (p.interview_pass + e) } else p
    if signal.stages_affected.contains "offer" then
      { p with offer := min 1 (p.offer + e) } else p
  else p

/-- One negative signal applied to the stages it names, clamped below
(skipped entirely under Python falsiness of the effect). -/
def apply_negative_signal (p : StageProbabilities) (signal : SignalImpact) :
    StageProbabilities :=
  if optQTruthy signal.compound_effect then
    let e := signal.compound_effect.getD 0
    let p := if signal.stages_affected.contains "recruiter" then
        { p with recruiter_pass := max 0 (p.recruiter_pass + e) } else p
    let p := if signal.stages_affected.contains "interview" then
        { p with interview_pass := max 0 (p.interview_pass + e) } else p
    if signal.stages_affected.contains "offer" then
      { p with offer := max 0 (p.offer + e) } else p
  else p

/-- _apply_compounding_effects: positive signals, then negative signals,
then the funnel constraint.  Note that the per-signal loops only ever
adjust recruiter_pass, interview_pass and offer; a signal naming "ats" in
stages_affected is not applied to ats_pass. -/
def apply_compounding_effects (base_probabilities : StageProbabilities)
    (signal_summary : SignalCompoundingSummary) : StageProbabilities :=
  let adjusted := base_probabilities
  let adjusted := signal_summary.positive_signals.foldl apply_positive_signal adjusted
  let adjusted := signal_summary.negative_signals.foldl apply_negative_signal adjusted
  let adjusted := { adjusted with recruiter_pass := min adjusted.recruiter_pass adjusted.ats_pass }
  let adjusted := { adjusted with interview_pass := min adjusted.interview_pass adjusted.recruiter_pass }
  { adjusted with offer := min adjusted.offer adjusted.interview_pass }

/-- _compute_overall_score: fixed 30/30/40 weighting. -/
def compute_overall_score (ats_result : ATSResultInternal)
    (recruiter_result : RecruiterResultInternal)
    (interview_result : InterviewReadinessResultInternal) : ℚ :=
  let overall := ats_result.compatibility_score * 0.30 +
    recruiter_result.evaluation_score * 0.30 +
    interview_result.readiness_score * 0.40
  round2 (max 0 (min 100 overall))

/-- The severity lookup used for recruiter red flags (dict.get default
-0.05). -/
def redFlagImpact (severity : String) : ℚ :=
  if severity = "critical" then -0.25
  else if severity = "high" then -0.15
  else if severity = "medium" then -0.08
  else if severity = "low" then -0.03
  else -0.05

/-- The severity lookup used for interview risks (dict.get default
-0.10). -/
def interviewRiskImpact (severity : String) : ℚ :=
  if severity = "critical" then -0.30
  else if severity = "high" then -0.20
  else if severity = "medium" then -0.10
  else if severity = "low" then -0.05
  else -0.10

/-- _rank_risk_factors: collect risks from the three stages and the
negative compounding signals, then sort ascending by impact.  Python
list.sort is stable; a stable sort over a total preorder is extensionally
unique, so it is modelled by insertion sort. -/
def rank_risk_factors (ats_result : ATSResultInternal)
    (recruiter_result : RecruiterResultInternal)
    (interview_result : InterviewReadinessResultInternal)
    (signal_summary : SignalCompoundingSummary) : List RiskFactor :=
  let risk_factors : List RiskFactor :=
    (if ats_result.compatibility_score < 50 then
      [{ factor := "Low ATS compatibility score"
         stage := "ats"
         impact_on_overall_probability := (50 - ats_result.compatibility_score) / 100 * (-0.3)
         severity := if ats_result.compatibility_score < 40 then "high" else "medium"
         description := "ATS compatibility score is " ++
           formatFix1 ats_result.compatibility_score ++ "/100" }]
     else []) ++
    (recruiter_result.red_flags.map (fun red_flag =>
      { factor := red_flag.type
        stage := "recruiter"
        impact_on_overall_probability := redFlagImpact red_flag.severity
        severity := red_flag.severity
        description := red_flag.description })) ++
    (interview_result.consistency_risks.map (fun risk =>
      { factor := risk.risk_type
        stage := "interview"
        impact_on_overall_probability := interviewRiskImpact risk.severity
        severity := risk.severity
        description := risk.description })) ++
    ((signal_summary.negative_signals.filter
        (fun signal => optQTruthy signal.compound_effect)).map (fun signal =>
      let impact := (signal.compound_effect.getD 0) * 0.8
      { factor := signal.signal
        stage := joinSep "," signal.stages_affected
        impact_on_overall_probability := impact
        severity := if |impact| > 0.15 then "high" else "medium"
        description := "Signal compounding effect: " ++ signal.signal }))
  risk_factors.insertionSort
    (fun a b => a.impact_on_overall_probability ≤ b.impact_on_overall_probability)

/-- _compute_component_contributions. -/
def compute_component_contributions (ats_result : ATSResultInternal)
    (recruiter_result : RecruiterResultInternal)
    (interview_result : InterviewReadinessResultInternal) : ComponentContributions :=
  { ats_contribution := some (round2 (ats_result.compatibility_score * 0.30))
    recruiter_contribution := some (round2 (recruiter_result.evaluation_score * 0.30))
    interview_contribution := some (round2 (interview_result.readiness_score * 0.40)) }

/-- ScoreAggregator.aggregate. -/
def aggregate (ats_result : ATSResultInternal)
    (recruiter_result : RecruiterResultInternal)
    (interview_result : InterviewReadinessResultInternal) : AggregatedScoreInternal :=
  let base_probabilities := calculate_base_probabilities ats_result recruiter_result interview_result
  let signal_summary := SignalCompoundingEngine.apply ats_result recruiter_result interview_result
  let final_probabilities := apply_compounding_effects base_probabilities signal_summary
  { signal_compounding_summary := signal_summary
    stage_probabilities := final_probabilities
    overall_score := compute_overall_score ats_result recruiter_result interview_result
    risk_factors := rank_risk_factors ats_result recruiter_result interview_result signal_summary
    component_contributions := compute_component_contributions ats_result recruiter_result interview_result }

end ScoreAggregator

/-! ## Explainability types and recommendation engine
(src/services/explainability) -/

/-- StageExplanation (explainability_types.py). -/
structure StageExplanation where
  summary : String
  key_factors : List String := []
  score_breakdown : Option String := none
  referenced_signals : List String := []
  referenced_risks : List String := []
  estimated_impact : Option ℚ := none
deriving DecidableEq, Repr

/-- Recommendation (explainability_types.py). -/
structure Recommendation where
  priority : String
  category : String
  action : String
  impact : String
  reasoning : String
  stage_affected : String
  impact_score_delta : Option ℚ := none
  impact_probability_delta : Option ℚ := none
  referenced_risk : Option String := none
  referenced_signal : Option String := none
deriving DecidableEq, Repr

/-- CounterfactualImpact (explainability_types.py); stage_impacts is an
insertion-ordered dict. -/
structure CounterfactualImpact where
  score_delta : ℚ
  probability_delta : ℚ
  stage_impacts : List (String × ℚ) := []
deriving DecidableEq, Repr

/-- Models CounterfactualScenario (explainability_types.py); the class and
its first field carry the scenario text, renamed what_if here. -/
structure CounterfactualCase where
  what_if : String
  change_description : String
  expected_impact : CounterfactualImpact
  referenced_factors : List String := []
deriving DecidableEq, Repr

/-- ExplainabilityArtifactInternal (explainability_types.py);
stage_explanations is an insertion-ordered dict. -/
structure ExplainabilityArtifactInternal where
  stage_explanations : List (String × StageExplanation) := []
  recommendations : List Recommendation := []
  counterfactuals : List CounterfactualCase := []
deriving DecidableEq, Repr

namespace RecommendationEngine

/-- _generate_ats_recommendations. -/
def generate_ats_recommendations (ats_result : ATSResultInternal) : List Recommendation :=
  (if !ats_result.required_fields_status.email then
    [{ priority := "high", category := "formatting"
       action := "Add email address to resume header"
       impact := "ATS systems require email for contact. Missing email will cause immediate rejection."
       reasoning := "ATS requires email field for candidate contact and tracking."
       stage_affected := "ats"
       impact_score_delta := some 25
       impact_probability_delta := some 0.25
       referenced_risk := some "Missing required field: email" }]
   else []) ++
  (if !ats_result.required_fields_status.phone then
    [{ priority := "high", category := "formatting"
       action := "Add phone number to resume header"
       impact := "ATS systems require phone for contact. Missing phone will cause immediate rejection."
       reasoning := "ATS requires phone field for candidate contact and tracking."
       stage_affected := "ats"
       impact_score_delta := some 25
       impact_probability_delta := some 0.25
       referenced_risk := some "Missing required field: phone" }]
   else []) ++
  (if !ats_result.required_fields_status.work_history then
    [{ priority := "critical", category := "content_improvement"
       action := "Add work experience section with at least one job entry"
       impact := "ATS requires work history. Missing work history will cause immediate rejection."
       reasoning := "ATS systems filter out resumes without work experience."
       stage_affected := "ats"
       impact_score_delta := some 30
       impact_probability_delta := some 0.30
       referenced_risk := some "Missing required field: work history" }]
   else []) ++
  (if ats_result.keyword_match_percentage < 60 then
    [{ priority := if ats_result.keyword_match_percentage < 40 then "high" else "medium"
       category := "keyword_optimization"
       action := "Incorporate missing keywords naturally: " ++
         joinSep ", " (ats_result.keyword_breakdown.missing_keywords.take 5)
       impact := "Keyword match is " ++ formatFix1 ats_result.keyword_match_percentage ++
         "%. Increasing to 70%+ would significantly improve ATS compatibility."
       reasoning := "ATS systems rank candidates by keyword match. Missing " ++
         natToStr ats_result.keyword_breakdown.missing_keywords.length ++
         " required keywords reduces visibility."
       stage_affected := "ats"
       impact_score_delta := some (min 20 ((70 - ats_result.keyword_match_percentage) * 0.5))
       impact_probability_delta := some (min 0.20 ((70 - ats_result.keyword_match_percentage) / 100))
       referenced_risk := some ("Low keyword match: " ++
         formatFix1 ats_result.keyword_match_percentage ++ "%") }]
   else []) ++
  (match ats_result.hard_filters with
   | none => []
   | some hf =>
     (if hf.experience_met = some false then
       [{ priority := "high", category := "content_improvement"
          action := "Highlight required skills more prominently in work experience descriptions"
          impact := "Hard filter failure for required skills causes immediate ATS rejection."
          reasoning := "ATS hard filters reject candidates who do not meet minimum skill requirements."
          stage_affected := "ats"
          impact_score_delta := some 20
          impact_probability_delta := some 0.20
          referenced_risk := some "Hard filter failed: missing required skills" }]
      else []) ++
     (if hf.education_met = some false then
       [{ priority := "high", category := "content_improvement"
          action := "Ensure education section clearly states required degree level"
          impact := "Hard filter failure for required education causes immediate ATS rejection."
          reasoning := "ATS hard filters reject candidates who do not meet minimum education requirements."
          stage_affected := "ats"
          impact_score_delta := some 15
          impact_probability_delta := some 0.15
          referenced_risk := some "Hard filter failed: missing required education" }]
      else []))

/-- _generate_recruiter_recommendations. -/
def generate_recruiter_recommendations (recruiter_result : RecruiterResultInternal) :
    List Recommendation :=
  (recruiter_result.red_flags.map (fun red_flag =>
    if red_flag.type = "job_hopping" then
      [{ priority := if red_flag.severity = "high" then "high" else "medium"
         category := "gap_explanation"
         action := "Add brief explanation for short tenures or job changes in cover letter or resume summary"
         impact := "Job hopping pattern raises recruiter concerns about stability. Explanation can mitigate concerns."
         reasoning := red_flag.description
         stage_affected := "recruiter"
         impact_score_delta := some (if red_flag.severity = "high" then 10 else 5)
         impact_probability_delta := some (if red_flag.severity = "high" then 0.10 else 0.05)
         referenced_risk := some red_flag.type }]
    else if red_flag.type = "employment_gap" then
      [{ priority := "medium"
         category := "gap_explanation"
         action := "Add brief explanation for employment gap (e.g., \x27Career break for family reasons\x27 or \x27Pursuing additional education\x27)"
         impact := "Unexplained employment gaps raise recruiter concerns. Brief explanation can address concerns."
         reasoning := red_flag.description
         stage_affected := "recruiter"
         impact_score_delta := some 8
         impact_probability_delta := some 0.08
         referenced_risk := some red_flag.type }]
    else if red_flag.type = "generic_resume" then
      [{ priority := "medium"
         category := "achievement_enhancement"
         action := "Add specific, quantifiable achievements with metrics (e.g., \x27Increased revenue by 25%\x27 or \x27Reduced processing time by 40%\x27)"
         impact := "Generic resume lacks impact. Quantifiable achievements demonstrate value and results."
         reasoning := red_flag.description
         stage_affected := "recruiter"
         impact_score_delta := some 12
         impact_probability_delta := some 0.12
         referenced_risk := some red_flag.type }]
    else if red_flag.type = "formatting_issues" then
      [{ priority := "low"
         category := "formatting"
         action := "Condense resume to 1-2 pages by removing less relevant information"
         impact := "Very long resumes are difficult for recruiters to scan quickly."
         reasoning := red_flag.description
         stage_affected := "recruiter"
         impact_score_delta := some 3
         impact_probability_delta := some 0.03
         referenced_risk := some red_flag.type }]
    else [])).flatten

/-- _generate_interview_recommendations. -/
def generate_interview_recommendations (interview_result : InterviewReadinessResultInternal) :
    List Recommendation :=
  (interview_result.consistency_risks.map (fun risk =>
    if risk.risk_type = "vague_claim" then
      [{ priority := if risk.severity = "high" then "high" else "medium"
         category := "achievement_enhancement"
         action := "Add specific details and metrics to support claim: \x27" ++
           (if optStrTruthy risk.related_claim then strTake (risk.related_claim.getD "") 50
            else "claim") ++ "...\x27"
         impact := "Vague claims will be probed in interviews. Specific details with metrics make claims defensible."
         reasoning := risk.description
         stage_affected := "interview"
         impact_score_delta := some (if risk.severity = "high" then 15 else 8)
         impact_probability_delta := some (if risk.severity = "high" then 0.15 else 0.08)
         referenced_risk := some risk.risk_type }]
    else if risk.risk_type = "overstated_achievement" then
      [{ priority := "high"
         category := "achievement_enhancement"
         action := "Add quantifiable metrics to support impact statement (e.g., specific numbers, percentages, timeframes)"
         impact := "Overstated claims without metrics will be challenged in interviews. Quantifiable evidence supports claims."
         reasoning := risk.description
         stage_affected := "interview"
         impact_score_delta := some 12
         impact_probability_delta := some 0.12
         referenced_risk := some risk.risk_type }]
    else if risk.risk_type = "skill_depth_mismatch" then
      [{ priority := "medium"
         category := "skill_addition"
         action := "Demonstrate listed skills in work experience descriptions: " ++
           (if containsSub risk.description ":" then
             pyStrip ((splitOnChar ':' risk.description).getD 1 "")
            else "listed skills")
         impact := "Skills listed but not demonstrated raise interview questions. Show skill usage in context."
         reasoning := risk.description
         stage_affected := "interview"
         impact_score_delta := some 10
         impact_probability_delta := some 0.10
         referenced_risk := some risk.risk_type }]
    else if risk.risk_type = "missing_context" then
      [{ priority := "medium"
         category := "content_improvement"
         action := "Add context to claims (team size, project scope, business impact, constraints faced)"
         impact := "Claims without context are difficult to defend in interviews. Context demonstrates understanding."
         reasoning := risk.description
         stage_affected := "interview"
         impact_score_delta := some 8
         impact_probability_delta := some 0.08
         referenced_risk := some risk.risk_type }]
    else [])).flatten

/-- _generate_aggregated_recommendations: aggregated risk factors not
already covered and with at least 0.10 absolute impact. -/
def generate_aggregated_recommendations (aggregated_score : AggregatedScoreInternal)
    (existing_recommendations : List Recommendation) : List Recommendation :=
  let existing_risk_types := (existing_recommendations.filter
    (fun rec => optStrTruthy rec.referenced_risk)).map (fun rec => rec.referenced_risk.getD "")
  (aggregated_score.risk_factors.map (fun risk_factor =>
    if existing_risk_types.contains risk_factor.factor then []
    else if |risk_factor.impact_on_overall_probability| < 0.10 then []
    else
      [{ priority := if risk_factor.severity = "critical" ∨ risk_factor.severity = "high"
           then "high" else "medium"
         category := "content_improvement"
         action := "Address " ++ pyLower risk_factor.factor ++
           " to improve overall hiring probability"
         impact := "This risk factor reduces overall hiring probability by " ++
           formatPct1 |risk_factor.impact_on_overall_probability| ++ "."
         reasoning := risk_factor.description
         stage_affected := if containsSub risk_factor.stage "," then "overall"
           else risk_factor.stage
         impact_score_delta := some (|risk_factor.impact_on_overall_probability| * 100)
         impact_probability_delta := some |risk_factor.impact_on_overall_probability|
         referenced_risk := some risk_factor.factor }])).flatten

/-- priority_order.get(rec.priority, 3). -/
def priorityScore (p : String) : Nat :=
  if p = "critical" then 0
  else if p = "high" then 1
  else if p = "medium" then 2
  else if p = "low" then 3
  else 3

/-- abs(rec.impact_score_delta) if rec.impact_score_delta else 0.0. -/
def impactKey (rec : Recommendation) : ℚ :=
  if optQTruthy rec.impact_score_delta then |rec.impact_score_delta.getD 0| else 0

/-- The sort-key comparison of _rank_recommendations: lexicographic on
(priority rank, descending absolute impact delta). -/
def recLe (a b : Recommendation) : Prop :=
  priorityScore a.priority < priorityScore b.priority ∨
    (priorityScore a.priority = priorityScore b.priority ∧ impactKey b ≤ impactKey a)

instance : DecidableRel recLe := fun a b => by
  unfold recLe
  infer_instance

instance : IsTotal Recommendation recLe := by
  constructor
  intro a b
  unfold recLe
  rcases lt_trichotomy (priorityScore a.priority) (priorityScore b.priority) with h | h | h
  · exact Or.inl (Or.inl h)
  · rcases le_total (impactKey b) (impactKey a) with h2 | h2
    · exact Or.inl (Or.inr ⟨h, h2⟩)
    · exact Or.inr (Or.inr ⟨h.symm, h2⟩)
  · exact Or.inr (Or.inl h)

instance : IsTrans Recommendation recLe := by
  constructor
  intro a b c hab hbc
  unfold recLe at *
  rcases hab with h1 | ⟨h1, h1q⟩
  · rcases hbc with h2 | ⟨h2, _⟩
    · exact Or.inl (h1.trans h2)
    · exact Or.inl (h2 ▸ h1)
  · rcases hbc with h2 | ⟨h2, h2q⟩
    · exact Or.inl (h1 ▸ h2)
    · exact Or.inr ⟨h1.trans h2, h2q.trans h1q⟩

/-- _rank_recommendations: Python sorted(...) with the tuple key
(priority rank, -impact); sorted is a stable sort and a stable sort over a
total preorder is extensionally unique, so it is modelled by insertion
sort. -/
def rank_recommendations (recommendations : List Recommendation) : List Recommendation :=
  recommendations.insertionSort recLe

/-- RecommendationEngine.generate. -/
def generate (ats_result : ATSResultInternal)
    (recruiter_result : RecruiterResultInternal)
    (interview_result : InterviewReadinessResultInternal)
    (aggregated_score : AggregatedScoreInternal) : List Recommendation :=
  let recommendations :=
    generate_ats_recommendations ats_result ++
    generate_recruiter_recommendations recruiter_result ++
    generate_interview_recommendations interview_result
  let recommendations := recommendations ++
    generate_aggregated_recommendations aggregated_score recommendations
  rank_recommendations recommendations

end RecommendationEngine

namespace ExplainabilityEngine

/-- _explain_ats_stage. -/
def explain_ats_stage (ats_result : ATSResultInternal) : StageExplanation :=
  let score := ats_result.compatibility_score
  let pct := ats_result.keyword_match_percentage
  let key_factors :=
    (if score ≥ 70 then ["Strong ATS compatibility score: " ++ formatFix1 score ++ "/100"]
     else if score ≥ 50 then ["Moderate ATS compatibility score: " ++ formatFix1 score ++ "/100"]
     else []) ++
    (if pct ≥ 70 then ["Good keyword match: " ++ formatFix1 pct ++ "%"]
     else if pct ≥ 50 then ["Moderate keyword match: " ++ formatFix1 pct ++ "%"]
     else []) ++
    (if ats_result.required_fields_status.all_present then
      ["All required fields present (email, phone, work history)"] else []) ++
    (if !ats_result.required_fields_status.email then ["Missing email address"] else []) ++
    (if !ats_result.required_fields_status.phone then ["Missing phone number"] else []) ++
    (if !ats_result.required_fields_status.work_history then ["Missing work history"] else []) ++
    (if pct < 50 then ["Low keyword match: " ++ formatFix1 pct ++ "%"] else []) ++
    (match ats_result.hard_filters with
     | none => []
     | some hf =>
       if hf.all_met = some false then
         (if hf.experience_met = some false then ["Hard filter failed: missing required skills"] else []) ++
         (if hf.education_met = some false then ["Hard filter failed: missing required education"] else [])
       else [])
  let referenced_signals :=
    (if score ≥ 70 then ["High ATS compatibility"]
     else if score ≥ 50 then ["Moderate ATS compatibility"]
     else []) ++
    (if pct ≥ 70 then ["High keyword match percentage"]
     else if pct ≥ 50 then ["Moderate keyword match percentage"]
     else []) ++
    (if ats_result.required_fields_status.all_present then ["Complete required fields"] else [])
  let referenced_risks :=
    (if !ats_result.required_fields_status.email then ["Missing required field: email"] else []) ++
    (if !ats_result.required_fields_status.phone then ["Missing required field: phone"] else []) ++
    (if !ats_result.required_fields_status.work_history then ["Missing required field: work history"] else []) ++
    (if pct < 50 then ["Low keyword match: " ++ formatFix1 pct ++ "%"] else []) ++
    (match ats_result.hard_filters with
     | none => []
     | some hf =>
       if hf.all_met = some false then
         (if hf.experience_met = some false then ["Hard filter failed: missing required skills"] else []) ++
         (if hf.education_met = some false then ["Hard filter failed: missing required education"] else [])
       else [])
  let summary :=
    if score ≥ 70 then
      "ATS compatibility is strong (" ++ formatFix1 score ++ "/100). Resume likely to pass ATS screening."
    else if score ≥ 50 then
      "ATS compatibility is moderate (" ++ formatFix1 score ++ "/100). Some improvements could increase pass probability."
    else
      "ATS compatibility is weak (" ++ formatFix1 score ++ "/100). Significant improvements needed to pass ATS screening."
  { summary := summary, key_factors := key_factors,
    referenced_signals := referenced_signals, referenced_risks := referenced_risks,
    estimated_impact := some score }

/-- _explain_recruiter_stage. -/
def explain_recruiter_stage (recruiter_result : RecruiterResultInternal) : StageExplanation :=
  let score := recruiter_result.evaluation_score
  let key_factors :=
    (if score ≥ 70 then ["Strong recruiter evaluation score: " ++ formatFix1 score ++ "/100"] else []) ++
    (if recruiter_result.career_progression_score ≥ 0.7 then
      ["Positive career progression trajectory"] else []) ++
    (if recruiter_result.job_stability_score ≥ 0.7 then
      ["Good job stability indicators"] else []) ++
    (if score < 50 then ["Low recruiter evaluation score: " ++ formatFix1 score ++ "/100"] else []) ++
    (recruiter_result.red_flags.map (fun red_flag =>
      "Red flag: " ++ red_flag.type ++ " (" ++ red_flag.severity ++ " severity)")) ++
    (if recruiter_result.job_stability_score < 0.5 then
      ["Job stability concerns detected"] else []) ++
    (if recruiter_result.career_progression_score < 0.5 then
      ["Career progression concerns detected"] else [])
  let referenced_signals :=
    (if score ≥ 70 then ["High recruiter evaluation score"] else []) ++
    (if recruiter_result.career_progression_score ≥ 0.7 then ["Strong career progression"] else []) ++
    (if recruiter_result.job_stability_score ≥ 0.7 then ["Strong job stability"] else [])
  let referenced_risks :=
    (if score < 50 then ["Low recruiter score: " ++ formatFix1 score] else []) ++
    (recruiter_result.red_flags.map (fun red_flag => red_flag.type)) ++
    (if recruiter_result.job_stability_score < 0.5 then ["Low job stability score"] else []) ++
    (if recruiter_result.career_progression_score < 0.5 then ["Low career progression score"] else [])
  let summary :=
    if score ≥ 70 then
      "Recruiter evaluation is strong (" ++ formatFix1 score ++ "/100). Resume likely to advance to interview stage."
    else if score ≥ 50 then
      "Recruiter evaluation is moderate (" ++ formatFix1 score ++ "/100). Some concerns may affect advancement."
    else
      "Recruiter evaluation is weak (" ++ formatFix1 score ++ "/100). Significant concerns may prevent advancement."
  { summary := summary, key_factors := key_factors,
    referenced_signals := referenced_signals, referenced_risks := referenced_risks,
    estimated_impact := some score }

/-- _explain_interview_stage. -/
def explain_interview_stage (interview_result : InterviewReadinessResultInternal) :
    StageExplanation :=
  let score := interview_result.readiness_score
  let defensible_count := (interview_result.resume_claims.filter
    (fun claim => claim.defensibility_score ≥ 0.7)).length
  let vague_count := (interview_result.resume_claims.filter
    (fun claim => claim.defensibility_score < 0.5)).length
  let key_factors :=
    (if score ≥ 70 then ["Strong interview readiness score: " ++ formatFix1 score ++ "/100"] else []) ++
    (if defensible_count > 0 then
      [natToStr defensible_count ++ " defensible resume claim(s) with strong evidence"] else []) ++
    (if score < 50 then ["Low interview readiness score: " ++ formatFix1 score ++ "/100"] else []) ++
    (interview_result.consistency_risks.map (fun risk =>
      "Consistency risk: " ++ risk.risk_type ++ " (" ++ risk.severity ++ " severity)")) ++
    (if vague_count > 0 then
      [natToStr vague_count ++ " vague or low-defensibility claim(s) may be probed"] else [])
  let referenced_signals :=
    (if score ≥ 70 then ["High interview readiness"] else []) ++
    (if defensible_count > 0 then ["Defensible claims with evidence"] else [])
  let referenced_risks :=
    (if score < 50 then ["Low interview readiness: " ++ formatFix1 score] else []) ++
    (interview_result.consistency_risks.map (fun risk => risk.risk_type)) ++
    (if vague_count > 0 then ["Vague or low-defensibility claims"] else [])
  let summary :=
    if score ≥ 70 then
      "Interview readiness is strong (" ++ formatFix1 score ++ "/100). Resume claims are defensible and interview-ready."
    else if score ≥ 50 then
      "Interview readiness is moderate (" ++ formatFix1 score ++ "/100). Some claims may need clarification in interviews."
    else
      "Interview readiness is weak (" ++ formatFix1 score ++ "/100). Multiple claims may be challenged in interviews."
  { summary := summary, key_factors := key_factors,
    referenced_signals := referenced_signals, referenced_risks := referenced_risks,
    estimated_impact := some score }

/-- _explain_overall_stage. -/
def explain_overall_stage (aggregated_score : AggregatedScoreInternal) : StageExplanation :=
  let score := aggregated_score.overall_score
  let top_risks := aggregated_score.risk_factors.take 3
  let key_factors :=
    (if score ≥ 70 then ["Strong overall score: " ++ formatFix1 score ++ "/100"]
     else if score ≥ 50 then ["Moderate overall score: " ++ formatFix1 score ++ "/100"]
     else ["Weak overall score: " ++ formatFix1 score ++ "/100"]) ++
    (if aggregated_score.stage_probabilities.offer > 0.5 then
      ["Offer probability above 50%"] else ["Offer probability below 50%"]) ++
    (top_risks.map (fun risk =>
      "Risk: " ++ risk.factor ++ " (" ++ risk.severity ++ " severity, " ++
        formatPct1 |risk.impact_on_overall_probability| ++ " impact)")) ++
    ((aggregated_score.signal_compounding_summary.positive_signals.take 2).map
      (fun signal => "Positive signal: " ++ signal.signal))
  let referenced_signals :=
    (if score ≥ 70 then ["High overall score"]
     else if score ≥ 50 then ["Moderate overall score"]
     else []) ++
    (if aggregated_score.stage_probabilities.offer > 0.5 then ["High offer probability"] else []) ++
    ((aggregated_score.signal_compounding_summary.positive_signals.take 2).map
      (fun signal => signal.signal))
  let referenced_risks :=
    (if score ≥ 70 then []
     else if score ≥ 50 then []
     else ["Low overall score: " ++ formatFix1 score]) ++
    (if aggregated_score.stage_probabilities.offer > 0.5 then [] else ["Low offer probability"]) ++
    (top_risks.map (fun risk => risk.factor))
  let summary :=
    if score ≥ 70 then
      "Overall assessment is strong (" ++ formatFix1 score ++ "/100). Candidate has good probability of receiving an offer."
    else if score ≥ 50 then
      "Overall assessment is moderate (" ++ formatFix1 score ++ "/100). Some improvements could increase hiring probability."
    else
      "Overall assessment is weak (" ++ formatFix1 score ++ "/100). Significant improvements needed to increase hiring probability."
  { summary := summary, key_factors := key_factors,
    referenced_signals := referenced_signals, referenced_risks := referenced_risks,
    estimated_impact := some score }

/-- _generate_counterfactuals: top 3 critical/high recommendations with
truthy deltas.  (The locals expected_score and expected_probability of the
source are computed and never stored; they are omitted.) -/
def generate_counterfactuals (_aggregated_score : AggregatedScoreInternal)
    (recommendations : List Recommendation) : List CounterfactualCase :=
  let top_recommendations := (recommendations.filter
    (fun rec => rec.priority = "critical" ∨ rec.priority = "high")).take 3
  ((top_recommendations.map (fun rec =>
    if optQTruthy rec.impact_score_delta ∧ optQTruthy rec.impact_probability_delta then
      let delta := rec.impact_score_delta.getD 0
      let stage_impacts : List (String × ℚ) :=
        if rec.stage_affected = "ats" then [("ats", delta)]
        else if rec.stage_affected = "recruiter" then [("recruiter", delta)]
        else if rec.stage_affected = "interview" then [("interview", delta)]
        else if rec.stage_affected = "overall" then [("overall", delta)]
        else []
      [{ what_if := "If you " ++ pyLower rec.action
         change_description := rec.action
         expected_impact :=
           { score_delta := delta
             probability_delta := rec.impact_probability_delta.getD 0
             stage_impacts := stage_impacts }
         referenced_factors :=
           if optStrTruthy rec.referenced_risk then [rec.referenced_risk.getD ""] else [] }]
    else [])).flatten)

/-- ExplainabilityEngine.explain. -/
def explain (ats_result : ATSResultInternal)
    (recruiter_result : RecruiterResultInternal)
    (interview_result : InterviewReadinessResultInternal)
    (aggregated_score : AggregatedScoreInternal) : ExplainabilityArtifactInternal :=
  let stage_explanations :=
    [("ats", explain_ats_stage ats_result),
     ("recruiter", explain_recruiter_stage recruiter_result),
     ("interview", explain_interview_stage interview_result),
     ("overall", explain_overall_stage aggregated_score)]
  let recommendations := RecommendationEngine.generate
    ats_result recruiter_result interview_result aggregated_score
  { stage_explanations := stage_explanations
    recommendations := recommendations
    counterfactuals := generate_counterfactuals aggregated_score recommendations }

end ExplainabilityEngine

/-! ## Orchestrator (src/core/orchestrator.py, src/core/context.py)

The seven stage bodies of the source are overridable hooks (each one a
NotImplementedError stub in this class); they are modelled by a parameter
giving, per stage, the payload state after running the stage body and
whether the body raised.  Wall-clock durations are modelled by an
exogenous per-stage duration oracle. -/

/-- AnalysisContext (context.py): the payload type parameter stands for
the input/result fields, which the orchestrator itself never reads; the
two metadata dicts are modelled extensionally as partial maps. -/
structure AnalysisContext (α : Type) where
  payload : α
  stage_statuses : String → Option String := fun _ => none
  stage_timings : String → Option ℚ := fun _ => none

/-- Dict assignment d[k] = v on a partial-map model of a dict. -/
def fnSet {β : Type} (m : String → Option β) (k : String) (v : β) :
    String → Option β :=
  fun q => if q = k then some v else m q

namespace AnalysisOrchestrator

/-- The fixed ordered stage list of run. -/
def pipeline_stages : List String :=
  ["parsing", "feature_extraction", "ats_simulation", "recruiter_evaluation",
   "interview_readiness", "scoring", "explainability"]

/-- One iteration of the stage loop in run: mark running, execute the
stage body (catching any raise), mark success or failed, record the
duration unconditionally. -/
def run_stage {α : Type} (stage_impl : String → α → α × Bool)
    (stage_clock : String → ℚ) (ctx : AnalysisContext α) (stage_name : String) :
    AnalysisContext α :=
  let ctx := { ctx with stage_statuses := fnSet ctx.stage_statuses stage_name "running" }
  let r := stage_impl stage_name ctx.payload
  let ctx := { ctx with
    payload := r.1
    stage_statuses := fnSet ctx.stage_statuses stage_name
      (if r.2 then "failed" else "success") }
  { ctx with stage_timings := fnSet ctx.stage_timings stage_name (stage_clock stage_name) }

/-- AnalysisOrchestrator.run: fold the stage loop over the fixed list. -/
def run {α : Type} (stage_impl : String → α → α × Bool) (stage_clock : String → ℚ)
    (ctx : AnalysisContext α) : AnalysisContext α :=
  pipeline_stages.foldl (run_stage stage_impl stage_clock) ctx

end AnalysisOrchestrator

/-! ## Specification-side definitions, predicates and concrete inputs
used by the theorems below -/

/-- The compatibility score exactly as the specification words it: 100
minus 25/25/30 for missing email/phone/work history, 20/15 for failed
experience/education hard filters, min(20, 60 - pct) for a keyword match
percentage below 60; floored at 0 and rounded to 2 decimals. -/
def claimed_compatibility_score (result : ATSResultInternal) : ℚ :=
  let deductions : ℚ :=
    (if !result.required_fields_status.email then 25 else 0) +
    (if !result.required_fields_status.phone then 25 else 0) +
    (if !result.required_fields_status.work_history then 30 else 0) +
    (match result.hard_filters with
     | none => 0
     | some hf =>
       (if hf.experience_met = some false then 20 else 0) +
       (if hf.education_met = some false then 15 else 0)) +
    (if result.keyword_match_percentage < 60 then
      min 20 (60 - result.keyword_match_percentage) else 0)
  round2 (max 0 (100 - deductions))

/-- All four stage probabilities lie in [0,1]. -/
def InRange01 (p : StageProbabilities) : Prop :=
  0 ≤ p.ats_pass ∧ p.ats_pass ≤ 1 ∧
  0 ≤ p.recruiter_pass ∧ p.recruiter_pass ≤ 1 ∧
  0 ≤ p.interview_pass ∧ p.interview_pass ≤ 1 ∧
  0 ≤ p.offer ∧ p.offer ≤ 1

def atsC3 : ATSResultInternal := { compatibility_score := 100 }

def recC3 : RecruiterResultInternal := { evaluation_score := 100 }

def intC3 : InterviewReadinessResultInternal :=
  { readiness_score := 100
    consistency_risks :=
      [{ risk_type := "fabricated_metrics", severity := "critical",
         description := "metrics cannot be reproduced" }] }

def sigCritC3 : SignalImpact :=
  { signal := "Critical risks detected: Interview risk: fabricated_metrics"
    stages_affected := ["ats", "recruiter", "interview", "offer"]
    compound_effect := some (-0.35) }

/-- One signal applied to one named stage as the claim words it: when the
effect is truthy and the stage is named, add the effect and clamp to
[0,1]. -/
def claimed_signal_application (stage : String) (x : ℚ) (signal : SignalImpact) : ℚ :=
  if optQTruthy signal.compound_effect ∧ signal.stages_affected.contains stage then
    max 0 (min 1 (x + signal.compound_effect.getD 0))
  else x

/-- A stage value after additively applying, in order, every positive then
every negative signal that names the stage (clamped after each
application), as the claim words it. -/
def claimed_stage_value (stage : String) (x : ℚ) (ss : SignalCompoundingSummary) : ℚ :=
  ss.negative_signals.foldl (claimed_signal_application stage)
    (ss.positive_signals.foldl (claimed_signal_application stage) x)

/-- The one-sided clamped step the source applies for positive signals. -/
def posStep (stage : String) (v : ℚ) (s : SignalImpact) : ℚ :=
  if optQTruthy s.compound_effect ∧ s.stages_affected.contains stage then
    min 1 (v + s.compound_effect.getD 0)
  else v

/-- The one-sided clamped step the source applies for negative signals. -/
def negStep (stage : String) (v : ℚ) (s : SignalImpact) : ℚ :=
  if optQTruthy s.compound_effect ∧ s.stages_affected.contains stage then
    max 0 (v + s.compound_effect.getD 0)
  else v

/-- A feature name carries a computation_method entry. -/
def featureComputedB (fv : FeatureVectorInternal) (name : String) : Bool :=
  dictHas fv.computation_method name

/-- A feature name is recorded in missing_features. -/
def featureMissingB (fv : FeatureVectorInternal) (name : String) : Bool :=
  fv.missing_features.contains name

/-- The job description of the C2 counterexample: a required education is
stated. -/
def jdC2 : ParsedJobDescriptionInternal :=
  { required_skills := ["python"], required_education := some "bachelor" }

/-- The resume of the C2 counterexample: empty skills, education and work
history. -/
def rC2 : ParsedResumeInternal := {}

/-- The per-job achievement-list claims, factored as the specification
words them (strip first, then keep non-empty entries). -/
def claimed_achievement_claims (job : ParsedJob) : List ResumeClaim :=
  (((job.achievements.getD []).map pyStrip).filter (fun a => !(a == ""))).map
    (fun a => InterviewReadinessEvaluator.create_claim_from_text a "achievement")

/-- The per-job description claims: bullet fragments of the non-empty
stripped description that are longer than 10 characters after
stripping. -/
def claimed_description_claims (job : ParsedJob) : List ResumeClaim :=
  if !(pyStrip (job.description.getD "") == "") then
    (((splitBullets (job.description.getD "")).map pyStrip).filter
        (fun b => !(b == "") && b.length > 10)).map
      (fun b => InterviewReadinessEvaluator.create_claim_from_text b "achievement")
  else []

/-- The skill fallback: the first five skills with a non-empty strip,
each a fixed "skill" claim with defensibility 0.5 and medium risk. -/
def claimed_skill_fallback (r : ParsedResumeInternal) : List ResumeClaim :=
  ((r.skills.take 5).filter (fun s => !(pyStrip s == ""))).map
    (fun s =>
      { claim_text := "Proficient in " ++ s
        claim_type := "skill"
        defensibility_score := 0.5
        depth_indicator := "surface"
        consistency_risk := some "medium"
        supporting_evidence := [] })

/-- Claim extraction exactly as the original claim words it: a job's
achievement claims are preferred and the description is split only
otherwise. -/
def claimed_extract_else (r : ParsedResumeInternal) : List ResumeClaim :=
  let claims := (r.work_experience.map (fun job =>
    if claimed_achievement_claims job ≠ [] then claimed_achievement_claims job
    else claimed_description_claims job)).flatten
  if claims = [] ∧ r.skills ≠ [] then claimed_skill_fallback r else claims

/-- Claim extraction as the amended claim words it: every job contributes
its achievement claims and, in addition, its description claims. -/
def claimed_extract_both (r : ParsedResumeInternal) : List ResumeClaim :=
  let claims := (r.work_experience.map (fun job =>
    claimed_achievement_claims job ++ claimed_description_claims job)).flatten
  if claims = [] ∧ r.skills ≠ [] then claimed_skill_fallback r else claims

/-- The C5 counterexample resume: one job that has both a non-empty
achievements list and a description with a long bullet fragment. -/
def rC5 : ParsedResumeInternal :=
  { work_experience :=
      [{ achievements := some ["Delivered the project ahead of schedule"]
         description := some "• Mentored two junior engineers every week" }] }

/-- Two same-key recommendations used to witness ranking stability. -/
def recW1 : Recommendation :=
  { priority := "high", category := "formatting", action := "First generated"
    impact := "i", reasoning := "r", stage_affected := "ats"
    impact_score_delta := some 10 }

/-- Second same-key recommendation (generated after recW1). -/
def recW2 : Recommendation :=
  { priority := "high", category := "formatting", action := "Second generated"
    impact := "i", reasoning := "r", stage_affected := "ats"
    impact_score_delta := some (-10) }

/-! ## Arithmetic lemmas about rounding and clamping -/

theorem round_le_round {x y : ℚ} (h : x ≤ y) : round x ≤ round y := by
  rw [round_eq, round_eq]
  exact Int.floor_le_floor (by linarith)

theorem round2_nonpos {x : ℚ} (h : x ≤ 0) : round2 x ≤ 0 := by
  unfold round2
  have h1 : round (x * 100) ≤ round (0 : ℚ) := round_le_round (by linarith)
  rw [round_zero] at h1
  have h2 : ((round (x * 100) : ℤ) : ℚ) ≤ 0 := by exact_mod_cast h1
  linarith

theorem round2_nonneg {x : ℚ} (h : 0 ≤ x) : 0 ≤ round2 x := by
  unfold round2
  have h1 : round (0 : ℚ) ≤ round (x * 100) := round_le_round (by linarith)
  rw [round_zero] at h1
  have h2 : (0 : ℚ) ≤ ((round (x * 100) : ℤ) : ℚ) := by exact_mod_cast h1
  linarith

theorem round2_zero : round2 0 = 0 := by
  unfold round2
  norm_num

/-- Flooring at 0 commutes with rounding to 2 decimals. -/
theorem max_zero_round2 (x : ℚ) : max 0 (round2 x) = round2 (max 0 x) := by
  rcases le_total x 0 with h | h
  · rw [max_eq_left (round2_nonpos h), max_eq_left h, round2_zero]
  · rw [max_eq_right (round2_nonneg h), max_eq_right h]

/-! ## C4: the ATS compatibility-score formula -/

/-- The score computation of the source agrees with the claimed formula
on every ATS result record. -/
theorem calculate_compatibility_score_eq (result : ATSResultInternal) :
    ATSSimulator.calculate_compatibility_score result =
      claimed_compatibility_score result := by
  obtain ⟨pct, score, rfs, hfo, kb, rr, tt⟩ := result
  unfold ATSSimulator.calculate_compatibility_score claimed_compatibility_score
  cases hfo with
  | none =>
    dsimp only
    rw [min_comm (60 - pct) 20]
    split_ifs <;> (rw [max_zero_round2]; congr 2; ring)
  | some f =>
    dsimp only
    rw [min_comm (60 - pct) 20]
    split_ifs <;> (rw [max_zero_round2]; congr 2; ring)

/-- C4: for every ATS simulation, the compatibility score equals 100
minus 25 for missing email, 25 for missing phone, 30 for missing work
history, 20 for a failed experience hard filter, 15 for a failed
education hard filter, and min(20, 60 - keyword_match_percentage) when
the keyword match percentage is below 60, floored at 0 and rounded to 2
decimals. -/
theorem simulate_compatibility_score_formula (r : ParsedResumeInternal)
    (jd : ParsedJobDescriptionInternal) (fv : FeatureVectorInternal) (t : String) :
    (ATSSimulator.simulate r jd fv t).compatibility_score =
      claimed_compatibility_score (ATSSimulator.simulate r jd fv t) := by
  unfold ATSSimulator.simulate
  dsimp only
  rw [calculate_compatibility_score_eq]
  unfold claimed_compatibility_score
  dsimp only

/-! ## C1: stage probabilities lie in [0,1] and satisfy the funnel -/

theorem clamp01_range (x : ℚ) : 0 ≤ max 0 (min 1 x) ∧ max 0 (min 1 x) ≤ 1 :=
  ⟨le_max_left _ _, max_le (by norm_num) (min_le_left _ _)⟩

/-- The base probabilities are clamped into [0,1]. -/
theorem base_probabilities_range (a : ATSResultInternal) (r : RecruiterResultInternal)
    (i : InterviewReadinessResultInternal) :
    InRange01 (ScoreAggregator.calculate_base_probabilities a r i) := by
  unfold ScoreAggregator.calculate_base_probabilities InRange01
  refine ⟨?_, ?_, ?_, ?_, ?_, ?_, ?_, ?_⟩ <;>
    first
      | exact (clamp01_range _).1
      | exact (clamp01_range _).2

/-- An Optional effect that is not (truthy and negative) has a
nonnegative default-0 value. -/
theorem not_neg_effect {o : Option ℚ} (h : ¬(optQTruthy o = true ∧ o.getD 0 < 0)) :
    0 ≤ o.getD 0 := by
  cases o with
  | none => simp
  | some e =>
    rcases not_and_or.mp h with h1 | h1
    · have he : e = 0 := by
        by_contra hne
        exact h1 (by simp [optQTruthy, hne])
      simp [he]
    · simpa using le_of_not_lt (by simpa using h1)

/-- An Optional effect that is not (truthy and positive) has a
nonpositive default-0 value. -/
theorem not_pos_effect {o : Option ℚ} (h : ¬(optQTruthy o = true ∧ o.getD 0 > 0)) :
    o.getD 0 ≤ 0 := by
  cases o with
  | none => simp
  | some e =>
    rcases not_and_or.mp h with h1 | h1
    · have he : e = 0 := by
        by_contra hne
        exact h1 (by simp [optQTruthy, hne])
      simp [he]
    · simpa using le_of_not_lt (by simpa using h1)

/-- Membership in a conditional singleton. -/
theorem mem_if_singleton {α : Type} {s x : α} {c : Prop} [Decidable c]
    (h : s ∈ (if c then [x] else [])) : c ∧ s = x := by
  split_ifs at h with hc
  · exact ⟨hc, List.mem_singleton.mp h⟩
  · cases h

theorem positive_signals_nonneg (a : ATSResultInternal) (r : RecruiterResultInternal)
    (i : InterviewReadinessResultInternal) :
    ∀ s ∈ (SignalCompoundingEngine.apply a r i).positive_signals,
      0 ≤ s.compound_effect.getD 0 := by
  intro s hs
  unfold SignalCompoundingEngine.apply at hs
  dsimp only at hs
  rcases hd : SignalCompoundingEngine.analyze_interview_dominance i with _ | ii <;>
    rw [hd] at hs <;> dsimp only at hs <;> split_ifs at hs <;> dsimp only at hs <;>
    simp only [List.nil_append, List.mem_append, List.mem_singleton,
      List.not_mem_nil, or_false, false_or, or_assoc] at hs
  all_goals rcases hs with rfl | rfl
  all_goals
    first
      | exact le_of_lt (And.right (by assumption))
      | exact not_neg_effect (by assumption)

theorem risk_compounding_nonpos (a : ATSResultInternal) (r : RecruiterResultInternal)
    (i : InterviewReadinessResultInternal) :
    ∀ s ∈ SignalCompoundingEngine.analyze_risk_compounding a r i,
      s.compound_effect.getD 0 ≤ 0 := by
  intro s hs
  unfold SignalCompoundingEngine.analyze_risk_compounding at hs
  dsimp only at hs
  split_ifs at hs <;>
    simp only [List.nil_append, List.append_nil, List.mem_append, List.mem_singleton,
      List.not_mem_nil, or_false, false_or, or_assoc] at hs
  all_goals rcases hs with rfl | rfl | rfl
  all_goals norm_num

theorem negative_signals_nonpos (a : ATSResultInternal) (r : RecruiterResultInternal)
    (i : InterviewReadinessResultInternal) :
    ∀ s ∈ (SignalCompoundingEngine.apply a r i).negative_signals,
      s.compound_effect.getD 0 ≤ 0 := by
  intro s hs
  unfold SignalCompoundingEngine.apply at hs
  dsimp only at hs
  rcases hd : SignalCompoundingEngine.analyze_interview_dominance i with _ | ii <;>
    rw [hd] at hs <;> dsimp only at hs <;> split_ifs at hs <;> dsimp only at hs <;>
    simp only [List.nil_append, List.mem_append, List.mem_singleton,
      List.not_mem_nil, or_false, false_or, or_assoc] at hs
  all_goals (first
    | (rcases hs with rfl | rfl | hs)
    | (rcases hs with rfl | hs)
    | (rcases hs with hs))
  all_goals
    first
      | exact risk_compounding_nonpos a r i s hs
      | exact le_of_lt (And.right (by assumption))
      | exact not_pos_effect (by assumption)

theorem apply_positive_signal_props (p : StageProbabilities) (sig : SignalImpact)
    (hp : InRange01 p) (he : 0 ≤ sig.compound_effect.getD 0) :
    InRange01 (ScoreAggregator.apply_positive_signal p sig) ∧
      (ScoreAggregator.apply_positive_signal p sig).ats_pass = p.ats_pass := by
  obtain ⟨ha1, ha2, hr1, hr2, hi1, hi2, ho1, ho2⟩ := hp
  unfold ScoreAggregator.apply_positive_signal
  split_ifs <;>
    exact ⟨⟨by assumption, by assumption, by first | assumption | exact le_min (by norm_num) (by linarith),
      by first | assumption | exact min_le_left _ _,
      by first | assumption | exact le_min (by norm_num) (by linarith),
      by first | assumption | exact min_le_left _ _,
      by first | assumption | exact le_min (by norm_num) (by linarith),
      by first | assumption | exact min_le_left _ _⟩, rfl⟩

theorem apply_negative_signal_props (p : StageProbabilities) (sig : SignalImpact)
    (hp : InRange01 p) (he : sig.compound_effect.getD 0 ≤ 0) :
    InRange01 (ScoreAggregator.apply_negative_signal p sig) ∧
      (ScoreAggregator.apply_negative_signal p sig).ats_pass = p.ats_pass := by
  obtain ⟨ha1, ha2, hr1, hr2, hi1, hi2, ho1, ho2⟩ := hp
  unfold ScoreAggregator.apply_negative_signal
  split_ifs <;>
    exact ⟨⟨by assumption, by assumption, by first | assumption | exact le_max_left _ _,
      by first | assumption | exact max_le (by norm_num) (by linarith),
      by first | assumption | exact le_max_left _ _,
      by first | assumption | exact max_le (by norm_num) (by linarith),
      by first | assumption | exact le_max_left _ _,
      by first | assumption | exact max_le (by norm_num) (by linarith)⟩, rfl⟩

theorem foldl_positive_props (l : List SignalImpact)
    (hl : ∀ s ∈ l, 0 ≤ s.compound_effect.getD 0) :
    ∀ p : StageProbabilities, InRange01 p →
      InRange01 (l.foldl ScoreAggregator.apply_positive_signal p) ∧
        (l.foldl ScoreAggregator.apply_positive_signal p).ats_pass = p.ats_pass := by
  induction l with
  | nil => exact fun p hp => ⟨hp, rfl⟩
  | cons x xs ih =>
    intro p hp
    simp only [List.foldl_cons]
    have hx := apply_positive_signal_props p x hp (hl x (List.mem_cons_self x xs))
    obtain ⟨ih1, ih2⟩ := ih (fun s hs => hl s (List.mem_cons_of_mem x hs)) _ hx.1
    exact ⟨ih1, ih2.trans hx.2⟩

theorem foldl_negative_props (l : List SignalImpact)
    (hl : ∀ s ∈ l, s.compound_effect.getD 0 ≤ 0) :
    ∀ p : StageProbabilities, InRange01 p →
      InRange01 (l.foldl ScoreAggregator.apply_negative_signal p) ∧
        (l.foldl ScoreAggregator.apply_negative_signal p).ats_pass = p.ats_pass := by
  induction l with
  | nil => exact fun p hp => ⟨hp, rfl⟩
  | cons x xs ih =>
    intro p hp
    simp only [List.foldl_cons]
    have hx := apply_negative_signal_props p x hp (hl x (List.mem_cons_self x xs))
    obtain ⟨ih1, ih2⟩ := ih (fun s hs => hl s (List.mem_cons_of_mem x hs)) _ hx.1
    exact ⟨ih1, ih2.trans hx.2⟩

theorem apply_compounding_effects_props (b : StageProbabilities)
    (ss : SignalCompoundingSummary) (hb : InRange01 b)
    (hpos : ∀ s ∈ ss.positive_signals, 0 ≤ s.compound_effect.getD 0)
    (hneg : ∀ s ∈ ss.negative_signals, s.compound_effect.getD 0 ≤ 0) :
    InRange01 (ScoreAggregator.apply_compounding_effects b ss) ∧
      (ScoreAggregator.apply_compounding_effects b ss).offer ≤
        (ScoreAggregator.apply_compounding_effects b ss).interview_pass ∧
      (ScoreAggregator.apply_compounding_effects b ss).interview_pass ≤
        (ScoreAggregator.apply_compounding_effects b ss).recruiter_pass ∧
      (ScoreAggregator.apply_compounding_effects b ss).recruiter_pass ≤
        (ScoreAggregator.apply_compounding_effects b ss).ats_pass ∧
      (ScoreAggregator.apply_compounding_effects b ss).ats_pass = b.ats_pass := by
  obtain ⟨h1, hats1⟩ := foldl_positive_props ss.positive_signals hpos b hb
  obtain ⟨h2, hats2⟩ := foldl_negative_props ss.negative_signals hneg _ h1
  obtain ⟨ha1, ha2, hr1, hr2, hi1, hi2, ho1, ho2⟩ := h2
  unfold ScoreAggregator.apply_compounding_effects
  dsimp only
  refine ⟨⟨ha1, ha2, le_min hr1 ha1, (min_le_left _ _).trans hr2,
    le_min hi1 (le_min hr1 ha1), (min_le_left _ _).trans hi2,
    le_min ho1 (le_min hi1 (le_min hr1 ha1)), (min_le_left _ _).trans ho2⟩,
    min_le_right _ _, min_le_right _ _, min_le_right _ _, hats2.trans hats1⟩

/-- C1: every stage probability returned by aggregate lies in [0,1] and
the funnel invariant offer <= interview_pass <= recruiter_pass <= ats_pass
holds after compounding. -/
theorem aggregate_probabilities_range_and_funnel (a : ATSResultInternal)
    (r : RecruiterResultInternal) (i : InterviewReadinessResultInternal) :
    (0 ≤ (ScoreAggregator.aggregate a r i).stage_probabilities.ats_pass ∧
      (ScoreAggregator.aggregate a r i).stage_probabilities.ats_pass ≤ 1) ∧
    (0 ≤ (ScoreAggregator.aggregate a r i).stage_probabilities.recruiter_pass ∧
      (ScoreAggregator.aggregate a r i).stage_probabilities.recruiter_pass ≤ 1) ∧
    (0 ≤ (ScoreAggregator.aggregate a r i).stage_probabilities.interview_pass ∧
      (ScoreAggregator.aggregate a r i).stage_probabilities.interview_pass ≤ 1) ∧
    (0 ≤ (ScoreAggregator.aggregate a r i).stage_probabilities.offer ∧
      (ScoreAggregator.aggregate a r i).stage_probabilities.offer ≤ 1) ∧
    (ScoreAggregator.aggregate a r i).stage_probabilities.offer ≤
      (ScoreAggregator.aggregate a r i).stage_probabilities.interview_pass ∧
    (ScoreAggregator.aggregate a r i).stage_probabilities.interview_pass ≤
      (ScoreAggregator.aggregate a r i).stage_probabilities.recruiter_pass ∧
    (ScoreAggregator.aggregate a r i).stage_probabilities.recruiter_pass ≤
      (ScoreAggregator.aggregate a r i).stage_probabilities.ats_pass := by
  have hprobs : (ScoreAggregator.aggregate a r i).stage_probabilities =
      ScoreAggregator.apply_compounding_effects
        (ScoreAggregator.calculate_base_probabilities a r i)
        (SignalCompoundingEngine.apply a r i) := rfl
  rw [hprobs]
  obtain ⟨⟨g1, g2, g3, g4, g5, g6, g7, g8⟩, f1, f2, f3, _⟩ :=
    apply_compounding_effects_props
      (ScoreAggregator.calculate_base_probabilities a r i)
      (SignalCompoundingEngine.apply a r i)
      (base_probabilities_range a r i)
      (positive_signals_nonneg a r i)
      (negative_signals_nonpos a r i)
  exact ⟨⟨g1, g2⟩, ⟨g3, g4⟩, ⟨g5, g6⟩, ⟨g7, g8⟩, f1, f2, f3⟩

theorem apply_C3 : SignalCompoundingEngine.apply atsC3 recC3 intC3 =
    { positive_signals :=
        [{ signal := "Strong ATS compatibility", stages_affected := ["ats", "recruiter"],
           compound_effect := some 0.05 }]
      negative_signals :=
        [{ signal := "Critical interview consistency risks detected",
           stages_affected := ["interview", "offer"], compound_effect := some (-0.40) },
         sigCritC3] } := by
  have h1 : SignalCompoundingEngine.analyze_ats_influence atsC3 recC3 =
      { signal := "Strong ATS compatibility", stages_affected := ["ats", "recruiter"],
        compound_effect := some 0.05 } := by
    norm_num [SignalCompoundingEngine.analyze_ats_influence, atsC3]
  have h2 : SignalCompoundingEngine.analyze_interview_dominance intC3 =
      some { signal := "Critical interview consistency risks detected",
             stages_affected := ["interview", "offer"], compound_effect := some (-0.40) } := by
    norm_num [SignalCompoundingEngine.analyze_interview_dominance, intC3,
      List.countP, List.countP.go]
  have h3 : SignalCompoundingEngine.analyze_risk_compounding atsC3 recC3 intC3 =
      [sigCritC3] := by
    norm_num [SignalCompoundingEngine.analyze_risk_compounding, atsC3, recC3, intC3,
      List.filter, joinSep, sigCritC3]
    all_goals decide
  norm_num [SignalCompoundingEngine.apply, h1, h2, h3, optQTruthy]

theorem base_C3 : ScoreAggregator.calculate_base_probabilities atsC3 recC3 intC3 =
    { ats_pass := 1, recruiter_pass := 1, interview_pass := 1, offer := 0.9 } := by
  norm_num [ScoreAggregator.calculate_base_probabilities, atsC3, recC3, intC3]

set_option maxHeartbeats 1000000 in
theorem probs_C3 : (ScoreAggregator.aggregate atsC3 recC3 intC3).stage_probabilities =
    { ats_pass := 1, recruiter_pass := 0.65, interview_pass := 0.25, offer := 0.15 } := by
  have hsp : (ScoreAggregator.aggregate atsC3 recC3 intC3).stage_probabilities =
      ScoreAggregator.apply_compounding_effects
        (ScoreAggregator.calculate_base_probabilities atsC3 recC3 intC3)
        (SignalCompoundingEngine.apply atsC3 recC3 intC3) := rfl
  rw [hsp, base_C3, apply_C3]
  simp only [ScoreAggregator.apply_compounding_effects, List.foldl,
    ScoreAggregator.apply_positive_signal, ScoreAggregator.apply_negative_signal,
    optQTruthy, sigCritC3, List.contains]
  simp
  norm_num [StageProbabilities.mk.injEq]

theorem aps_ats (p : StageProbabilities) (s : SignalImpact) :
    (ScoreAggregator.apply_positive_signal p s).ats_pass = p.ats_pass := by
  unfold ScoreAggregator.apply_positive_signal
  split_ifs <;> rfl

theorem ans_ats (p : StageProbabilities) (s : SignalImpact) :
    (ScoreAggregator.apply_negative_signal p s).ats_pass = p.ats_pass := by
  unfold ScoreAggregator.apply_negative_signal
  split_ifs <;> rfl

theorem foldl_aps_ats (l : List SignalImpact) :
    ∀ p : StageProbabilities,
      (l.foldl ScoreAggregator.apply_positive_signal p).ats_pass = p.ats_pass := by
  induction l with
  | nil => exact fun _ => rfl
  | cons x xs ih =>
    intro p
    simp only [List.foldl_cons]
    exact (ih _).trans (aps_ats p x)

theorem foldl_ans_ats (l : List SignalImpact) :
    ∀ p : StageProbabilities,
      (l.foldl ScoreAggregator.apply_negative_signal p).ats_pass = p.ats_pass := by
  induction l with
  | nil => exact fun _ => rfl
  | cons x xs ih =>
    intro p
    simp only [List.foldl_cons]
    exact (ih _).trans (ans_ats p x)

theorem aps_recruiter (p : StageProbabilities) (s : SignalImpact) :
    (ScoreAggregator.apply_positive_signal p s).recruiter_pass =
      if optQTruthy s.compound_effect ∧ s.stages_affected.contains "recruiter" then
        min 1 (p.recruiter_pass + s.compound_effect.getD 0)
      else p.recruiter_pass := by
  unfold ScoreAggregator.apply_positive_signal
  split_ifs <;> simp_all

theorem aps_interview (p : StageProbabilities) (s : SignalImpact) :
    (ScoreAggregator.apply_positive_signal p s).interview_pass =
      if optQTruthy s.compound_effect ∧ s.stages_affected.contains "interview" then
        min 1 (p.interview_pass + s.compound_effect.getD 0)
      else p.interview_pass := by
  unfold ScoreAggregator.apply_positive_signal
  split_ifs <;> simp_all

theorem aps_offer (p : StageProbabilities) (s : SignalImpact) :
    (ScoreAggregator.apply_positive_signal p s).offer =
      if optQTruthy s.compound_effect ∧ s.stages_affected.contains "offer" then
        min 1 (p.offer + s.compound_effect.getD 0)
      else p.offer := by
  unfold ScoreAggregator.apply_positive_signal
  split_ifs <;> simp_all

theorem ans_recruiter (p : StageProbabilities) (s : SignalImpact) :
    (ScoreAggregator.apply_negative_signal p s).recruiter_pass =
      if optQTruthy s.compound_effect ∧ s.stages_affected.contains "recruiter" then
        max 0 (p.recruiter_pass + s.compound_effect.getD 0)
      else p.recruiter_pass := by
  unfold ScoreAggregator.apply_negative_signal
  split_ifs <;> simp_all

theorem ans_interview (p : StageProbabilities) (s : SignalImpact) :
    (ScoreAggregator.apply_negative_signal p s).interview_pass =
      if optQTruthy s.compound_effect ∧ s.stages_affected.contains "interview" then
        max 0 (p.interview_pass + s.compound_effect.getD 0)
      else p.interview_pass := by
  unfold ScoreAggregator.apply_negative_signal
  split_ifs <;> simp_all

theorem ans_offer (p : StageProbabilities) (s : SignalImpact) :
    (ScoreAggregator.apply_negative_signal p s).offer =
      if optQTruthy s.compound_effect ∧ s.stages_affected.contains "offer" then
        max 0 (p.offer + s.compound_effect.getD 0)
      else p.offer := by
  unfold ScoreAggregator.apply_negative_signal
  split_ifs <;> simp_all

theorem foldl_proj (f : StageProbabilities → SignalImpact → StageProbabilities)
    (proj : StageProbabilities → ℚ) (step : ℚ → SignalImpact → ℚ)
    (hstep : ∀ p s, proj (f p s) = step (proj p) s) (l : List SignalImpact) :
    ∀ p, proj (l.foldl f p) = l.foldl step (proj p) := by
  induction l with
  | nil => exact fun _ => rfl
  | cons x xs ih =>
    intro p
    simp only [List.foldl_cons]
    rw [ih (f p x), hstep p x]

/-- On [0,1] starting points and nonnegative effects, the source's
one-sided positive clamp agrees with the two-sided clamp of the claim, and
the running value stays in [0,1]. -/
theorem foldl_posStep_claimed (stage : String) (l : List SignalImpact)
    (hl : ∀ s ∈ l, 0 ≤ s.compound_effect.getD 0) :
    ∀ x, 0 ≤ x → x ≤ 1 →
      l.foldl (posStep stage) x = l.foldl (claimed_signal_application stage) x ∧
        0 ≤ l.foldl (posStep stage) x ∧ l.foldl (posStep stage) x ≤ 1 := by
  induction l with
  | nil => exact fun x h0 h1 => ⟨rfl, h0, h1⟩
  | cons s xs ih =>
    intro x h0 h1
    have hs := hl s (List.mem_cons_self s xs)
    have hxs : ∀ t ∈ xs, 0 ≤ t.compound_effect.getD 0 :=
      fun t ht => hl t (List.mem_cons_of_mem s ht)
    simp only [List.foldl_cons]
    have hstep : posStep stage x s = claimed_signal_application stage x s := by
      unfold posStep claimed_signal_application
      split_ifs with h
      · rw [max_eq_right (le_min (by norm_num) (by linarith))]
      · rfl
    have hrange : 0 ≤ posStep stage x s ∧ posStep stage x s ≤ 1 := by
      unfold posStep
      split_ifs with h
      · exact ⟨le_min (by norm_num) (by linarith), min_le_left _ _⟩
      · exact ⟨h0, h1⟩
    obtain ⟨e1, e2, e3⟩ :=
      ih hxs (posStep stage x s) hrange.1 hrange.2
    exact ⟨e1.trans (by rw [hstep]), e2, e3⟩

/-- On [0,1] starting points and nonpositive effects, the source's
one-sided negative clamp agrees with the two-sided clamp of the claim, and
the running value stays in [0,1]. -/
theorem foldl_negStep_claimed (stage : String) (l : List SignalImpact)
    (hl : ∀ s ∈ l, s.compound_effect.getD 0 ≤ 0) :
    ∀ x, 0 ≤ x → x ≤ 1 →
      l.foldl (negStep stage) x = l.foldl (claimed_signal_application stage) x ∧
        0 ≤ l.foldl (negStep stage) x ∧ l.foldl (negStep stage) x ≤ 1 := by
  induction l with
  | nil => exact fun x h0 h1 => ⟨rfl, h0, h1⟩
  | cons s xs ih =>
    intro x h0 h1
    have hs := hl s (List.mem_cons_self s xs)
    have hxs : ∀ t ∈ xs, t.compound_effect.getD 0 ≤ 0 :=
      fun t ht => hl t (List.mem_cons_of_mem s ht)
    simp only [List.foldl_cons]
    have hstep : negStep stage x s = claimed_signal_application stage x s := by
      unfold negStep claimed_signal_application
      split_ifs with h
      · rw [min_eq_right (by linarith)]
      · rfl
    have hrange : 0 ≤ negStep stage x s ∧ negStep stage x s ≤ 1 := by
      unfold negStep
      split_ifs with h
      · exact ⟨le_max_left _ _, max_le (by norm_num) (by linarith)⟩
      · exact ⟨h0, h1⟩
    obtain ⟨e1, e2, e3⟩ :=
      ih hxs (negStep stage x s) hrange.1 hrange.2
    exact ⟨e1.trans (by rw [hstep]), e2, e3⟩
/-- C3 (amended): during aggregation, every compounding signal is applied
additively (with clamping into [0,1] after each application, positive
signals first) to each stage it names among recruiter, interview and
offer, after which the funnel constraint caps each stage by its
predecessor; a signal naming the ats stage is ignored for ats_pass, which
always keeps its base value. -/
theorem compounding_per_stage_application (a : ATSResultInternal)
    (r : RecruiterResultInternal) (i : InterviewReadinessResultInternal) :
    (ScoreAggregator.aggregate a r i).stage_probabilities.ats_pass =
      (ScoreAggregator.calculate_base_probabilities a r i).ats_pass ∧
    (ScoreAggregator.aggregate a r i).stage_probabilities.recruiter_pass =
      min (claimed_stage_value "recruiter"
            ((ScoreAggregator.calculate_base_probabilities a r i).recruiter_pass)
            (SignalCompoundingEngine.apply a r i))
          ((ScoreAggregator.calculate_base_probabilities a r i).ats_pass) ∧
    (ScoreAggregator.aggregate a r i).stage_probabilities.interview_pass =
      min (claimed_stage_value "interview"
            ((ScoreAggregator.calculate_base_probabilities a r i).interview_pass)
            (SignalCompoundingEngine.apply a r i))
          ((ScoreAggregator.aggregate a r i).stage_probabilities.recruiter_pass) ∧
    (ScoreAggregator.aggregate a r i).stage_probabilities.offer =
      min (claimed_stage_value "offer"
            ((ScoreAggregator.calculate_base_probabilities a r i).offer)
            (SignalCompoundingEngine.apply a r i))
          ((ScoreAggregator.aggregate a r i).stage_probabilities.interview_pass) := by
  obtain ⟨hb1, hb2, hb3, hb4, hb5, hb6, hb7, hb8⟩ := base_probabilities_range a r i
  have hpos := positive_signals_nonneg a r i
  have hneg := negative_signals_nonpos a r i
  set b := ScoreAggregator.calculate_base_probabilities a r i with hbdef
  set ss := SignalCompoundingEngine.apply a r i with hssdef
  set p1 := ss.positive_signals.foldl ScoreAggregator.apply_positive_signal b with hp1
  set p2 := ss.negative_signals.foldl ScoreAggregator.apply_negative_signal p1 with hp2
  have hF : (ScoreAggregator.aggregate a r i).stage_probabilities =
      { ats_pass := p2.ats_pass
        recruiter_pass := min p2.recruiter_pass p2.ats_pass
        interview_pass := min p2.interview_pass (min p2.recruiter_pass p2.ats_pass)
        offer := min p2.offer (min p2.interview_pass (min p2.recruiter_pass p2.ats_pass)) } := rfl
  have hats : p2.ats_pass = b.ats_pass := by
    rw [hp2, hp1, foldl_ans_ats, foldl_aps_ats]
  -- recruiter
  have hrec : p2.recruiter_pass =
      claimed_stage_value "recruiter" b.recruiter_pass ss := by
    have e1 : p1.recruiter_pass =
        ss.positive_signals.foldl (posStep "recruiter") b.recruiter_pass := by
      rw [hp1]
      exact foldl_proj _ _ _ (fun p s => by rw [aps_recruiter]; rfl) _ b
    have e2 : p2.recruiter_pass =
        ss.negative_signals.foldl (negStep "recruiter") p1.recruiter_pass := by
      rw [hp2]
      exact foldl_proj _ _ _ (fun p s => by rw [ans_recruiter]; rfl) _ p1
    obtain ⟨f1, f2, f3⟩ := foldl_posStep_claimed "recruiter" ss.positive_signals hpos
      b.recruiter_pass hb3 hb4
    rw [← e1] at f1 f2 f3
    obtain ⟨g1, _, _⟩ := foldl_negStep_claimed "recruiter" ss.negative_signals hneg
      p1.recruiter_pass f2 f3
    rw [e2, g1, claimed_stage_value, ← f1, e1]
  -- interview
  have hint : p2.interview_pass =
      claimed_stage_value "interview" b.interview_pass ss := by
    have e1 : p1.interview_pass =
        ss.positive_signals.foldl (posStep "interview") b.interview_pass := by
      rw [hp1]
      exact foldl_proj _ _ _ (fun p s => by rw [aps_interview]; rfl) _ b
    have e2 : p2.interview_pass =
        ss.negative_signals.foldl (negStep "interview") p1.interview_pass := by
      rw [hp2]
      exact foldl_proj _ _ _ (fun p s => by rw [ans_interview]; rfl) _ p1
    obtain ⟨f1, f2, f3⟩ := foldl_posStep_claimed "interview" ss.positive_signals hpos
      b.interview_pass hb5 hb6
    rw [← e1] at f1 f2 f3
    obtain ⟨g1, _, _⟩ := foldl_negStep_claimed "interview" ss.negative_signals hneg
      p1.interview_pass f2 f3
    rw [e2, g1, claimed_stage_value, ← f1, e1]
  -- offer
  have hoff : p2.offer = claimed_stage_value "offer" b.offer ss := by
    have e1 : p1.offer =
        ss.positive_signals.foldl (posStep "offer") b.offer := by
      rw [hp1]
      exact foldl_proj _ _ _ (fun p s => by rw [aps_offer]; rfl) _ b
    have e2 : p2.offer =
        ss.negative_signals.foldl (negStep "offer") p1.offer := by
      rw [hp2]
      exact foldl_proj _ _ _ (fun p s => by rw [ans_offer]; rfl) _ p1
    obtain ⟨f1, f2, f3⟩ := foldl_posStep_claimed "offer" ss.positive_signals hpos
      b.offer hb7 hb8
    rw [← e1] at f1 f2 f3
    obtain ⟨g1, _, _⟩ := foldl_negStep_claimed "offer" ss.negative_signals hneg
      p1.offer f2 f3
    rw [e2, g1, claimed_stage_value, ← f1, e1]
  rw [hF]
  exact ⟨hats, by rw [hrec, hats], by rw [hint], by rw [hoff]⟩
/-- C3 (counterexample): on this input the aggregation produces a
negative compounding signal that names the ats stage (effect -0.35), the
base ats probability is 1, yet the final ats_pass is still 1: the effect
is not applied to the ats stage it names, although additive clamped
application would have produced 0.65. -/
theorem compounding_ats_counterexample :
    sigCritC3 ∈ (ScoreAggregator.aggregate atsC3 recC3 intC3).signal_compounding_summary.negative_signals ∧
    sigCritC3.stages_affected.contains "ats" = true ∧
    sigCritC3.compound_effect = some (-0.35) ∧
    (ScoreAggregator.calculate_base_probabilities atsC3 recC3 intC3).ats_pass = 1 ∧
    (ScoreAggregator.aggregate atsC3 recC3 intC3).stage_probabilities.ats_pass = 1 ∧
    max 0 (min 1
        ((ScoreAggregator.calculate_base_probabilities atsC3 recC3 intC3).ats_pass +
          (-0.35))) ≠
      (ScoreAggregator.aggregate atsC3 recC3 intC3).stage_probabilities.ats_pass := by
  have hsum : (ScoreAggregator.aggregate atsC3 recC3 intC3).signal_compounding_summary =
      SignalCompoundingEngine.apply atsC3 recC3 intC3 := rfl
  refine ⟨?_, by decide, rfl, ?_, ?_, ?_⟩
  · rw [hsum, apply_C3]
    simp
  · rw [base_C3]
  · rw [probs_C3]
  · rw [base_C3, probs_C3]
    norm_num

/-- C2 (counterexample): on a job description stating a required
education and a resume with no education, no skills and no work history,
has_required_degree is recorded neither as computed nor as missing, and
features recorded as missing are nonetheless assigned zero/false defaults
rather than left unset. -/
theorem feature_partition_counterexample :
    (featureComputedB (FeatureExtractor.extract rC2 jdC2) "has_required_degree" = false ∧
      featureMissingB (FeatureExtractor.extract rC2 jdC2) "has_required_degree" = false) ∧
    (featureMissingB (FeatureExtractor.extract rC2 jdC2) "keyword_match_count" = true ∧
      (FeatureExtractor.extract rC2 jdC2).quantitative.keyword_match_count = some 0) ∧
    (featureMissingB (FeatureExtractor.extract rC2 jdC2) "has_required_skills" = true ∧
      (FeatureExtractor.extract rC2 jdC2).categorical.has_required_skills = some false) := by
  refine ⟨⟨?_, ?_⟩, ⟨?_, ?_⟩, ⟨?_, ?_⟩⟩ <;> decide
set_option maxHeartbeats 2000000 in
/-- C2 (amended): each of the five features skills_count,
keyword_match_count, resume_length_words, years_experience and
has_required_skills appears in exactly one of computation_method and
missing_features; has_required_degree appears in exactly one when the job
states no required education (missing) or the resume has education
entries (computed), and in neither exactly when a required education is
stated but the resume education list is empty; and all six feature fields
always hold concrete values (a zero or false default when missing) rather
than staying unset. -/
theorem extract_feature_partition (r : ParsedResumeInternal)
    (jd : ParsedJobDescriptionInternal) :
    (featureComputedB (FeatureExtractor.extract r jd) "skills_count" ≠
      featureMissingB (FeatureExtractor.extract r jd) "skills_count") ∧
    (featureComputedB (FeatureExtractor.extract r jd) "keyword_match_count" ≠
      featureMissingB (FeatureExtractor.extract r jd) "keyword_match_count") ∧
    (featureComputedB (FeatureExtractor.extract r jd) "resume_length_words" ≠
      featureMissingB (FeatureExtractor.extract r jd) "resume_length_words") ∧
    (featureComputedB (FeatureExtractor.extract r jd) "years_experience" ≠
      featureMissingB (FeatureExtractor.extract r jd) "years_experience") ∧
    (featureComputedB (FeatureExtractor.extract r jd) "has_required_skills" ≠
      featureMissingB (FeatureExtractor.extract r jd) "has_required_skills") ∧
    (optStrTruthy jd.required_education = false →
      featureComputedB (FeatureExtractor.extract r jd) "has_required_degree" = false ∧
      featureMissingB (FeatureExtractor.extract r jd) "has_required_degree" = true) ∧
    (optStrTruthy jd.required_education = true →
      featureMissingB (FeatureExtractor.extract r jd) "has_required_degree" = false ∧
      (featureComputedB (FeatureExtractor.extract r jd) "has_required_degree" = true ↔
        r.education ≠ [])) ∧
    (FeatureExtractor.extract r jd).quantitative.skills_count.isSome = true ∧
    (FeatureExtractor.extract r jd).quantitative.keyword_match_count.isSome = true ∧
    (FeatureExtractor.extract r jd).quantitative.resume_length_words.isSome = true ∧
    (FeatureExtractor.extract r jd).quantitative.years_experience.isSome = true ∧
    (FeatureExtractor.extract r jd).categorical.has_required_skills.isSome = true ∧
    (FeatureExtractor.extract r jd).categorical.has_required_degree.isSome = true := by
  unfold FeatureExtractor.extract FeatureExtractor.compute_skills_count
    FeatureExtractor.compute_keyword_match_count
    FeatureExtractor.compute_resume_length_words
    FeatureExtractor.compute_years_experience
    FeatureExtractor.compute_has_required_skills
    FeatureExtractor.compute_has_required_degree
  dsimp only
  split_ifs <;>
    simp_all [featureComputedB, featureMissingB, dictHas, dictSet]

/-- Witness for the amended feature-partition theorem at a concrete
input (required education stated, empty resume). -/
theorem extract_feature_partition_witness :
    (featureComputedB (FeatureExtractor.extract rC2 jdC2) "skills_count" ≠
      featureMissingB (FeatureExtractor.extract rC2 jdC2) "skills_count") ∧
    (featureComputedB (FeatureExtractor.extract rC2 jdC2) "keyword_match_count" ≠
      featureMissingB (FeatureExtractor.extract rC2 jdC2) "keyword_match_count") ∧
    (featureComputedB (FeatureExtractor.extract rC2 jdC2) "resume_length_words" ≠
      featureMissingB (FeatureExtractor.extract rC2 jdC2) "resume_length_words") ∧
    (featureComputedB (FeatureExtractor.extract rC2 jdC2) "years_experience" ≠
      featureMissingB (FeatureExtractor.extract rC2 jdC2) "years_experience") ∧
    (featureComputedB (FeatureExtractor.extract rC2 jdC2) "has_required_skills" ≠
      featureMissingB (FeatureExtractor.extract rC2 jdC2) "has_required_skills") ∧
    (optStrTruthy jdC2.required_education = false →
      featureComputedB (FeatureExtractor.extract rC2 jdC2) "has_required_degree" = false ∧
      featureMissingB (FeatureExtractor.extract rC2 jdC2) "has_required_degree" = true) ∧
    (optStrTruthy jdC2.required_education = true →
      featureMissingB (FeatureExtractor.extract rC2 jdC2) "has_required_degree" = false ∧
      (featureComputedB (FeatureExtractor.extract rC2 jdC2) "has_required_degree" = true ↔
        rC2.education ≠ [])) ∧
    (FeatureExtractor.extract rC2 jdC2).quantitative.skills_count.isSome = true ∧
    (FeatureExtractor.extract rC2 jdC2).quantitative.keyword_match_count.isSome = true ∧
    (FeatureExtractor.extract rC2 jdC2).quantitative.resume_length_words.isSome = true ∧
    (FeatureExtractor.extract rC2 jdC2).quantitative.years_experience.isSome = true ∧
    (FeatureExtractor.extract rC2 jdC2).categorical.has_required_skills.isSome = true ∧
    (FeatureExtractor.extract rC2 jdC2).categorical.has_required_degree.isSome = true :=
  extract_feature_partition rC2 jdC2


open InterviewReadinessEvaluator

/-- C5 (counterexample): a job carrying both a non-empty achievements
list and a long description bullet contributes claims from both sources;
the else-semantics of the original claim would keep only the achievement
claim. -/
theorem extract_claims_both_counterexample :
    (extract_resume_claims rC5).map (fun c => c.claim_text) =
      ["Delivered the project ahead of schedule",
       "Mentored two junior engineers every week"] ∧
    (claimed_extract_else rC5).map (fun c => c.claim_text) =
      ["Delivered the project ahead of schedule"] ∧
    extract_resume_claims rC5 ≠ claimed_extract_else rC5 := by
  refine ⟨by decide, by decide, ?_⟩
  intro h
  have := congrArg (fun l => (l.map (fun c : ResumeClaim => c.claim_text)).length) h
  revert this
  decide
open InterviewReadinessEvaluator

/-- C5 (amended): claim extraction takes, for every job, both the
stripped non-empty achievements-list entries and the stripped bullet
fragments of the description longer than 10 characters (not one or the
other), and falls back to the first five skills only when no claim was
found at all. -/
theorem extract_resume_claims_is_both (r : ParsedResumeInternal) :
    extract_resume_claims r = claimed_extract_both r := by
  have hach : ∀ job : ParsedJob,
      claimed_achievement_claims job =
        ((job.achievements.getD []).filter (fun a => !(pyStrip a == ""))).map
          (fun a => create_claim_from_text (pyStrip a) "achievement") := by
    intro job
    unfold claimed_achievement_claims
    rw [List.filter_map, List.map_map]
    rfl
  have hfb : claimed_skill_fallback r =
      ((r.skills.take 5).filter (fun s => !(s == "") && !(pyStrip s == ""))).map
        (fun s =>
          ({ claim_text := "Proficient in " ++ s
             claim_type := "skill"
             defensibility_score := 0.5
             depth_indicator := "surface"
             consistency_risk := some "medium"
             supporting_evidence := [] } : ResumeClaim)) := by
    unfold claimed_skill_fallback
    congr 1
    apply List.filter_congr
    intro s _
    by_cases h : s = ""
    · subst h; decide
    · simp [h]
  simp only [extract_resume_claims, claimed_extract_both, claimed_description_claims,
    hach, hfb]

open InterviewReadinessEvaluator

/-- C7: any claim text matching the quantified-metric regex is scored
(0.9, deep), carries no consistency risk, and generates no predicted
interview questions. -/
theorem metric_claim_deep_no_questions (text : String)
    (h : hasMetrics text = true) :
    evaluate_defensibility text = (0.9, "deep") ∧
    (create_claim_from_text text "achievement").defensibility_score = 0.9 ∧
    (create_claim_from_text text "achievement").depth_indicator = "deep" ∧
    (create_claim_from_text text "achievement").consistency_risk = none ∧
    predict_interview_questions [create_claim_from_text text "achievement"] = [] := by
  have hdef : evaluate_defensibility text = (0.9, "deep") := by
    unfold evaluate_defensibility
    rw [h]
    simp
  have hrisk : assess_consistency_risk 0.9 = none := by
    unfold assess_consistency_risk
    norm_num
  have hclaim : (create_claim_from_text text "achievement").consistency_risk = none := by
    unfold create_claim_from_text
    dsimp only
    rw [hdef, hrisk]
  refine ⟨hdef, ?_, ?_, hclaim, ?_⟩
  · unfold create_claim_from_text
    dsimp only
    rw [hdef]
  · unfold create_claim_from_text
    dsimp only
    rw [hdef]
  · unfold predict_interview_questions
    rw [List.map_singleton, hclaim]
    simp

/-- Witness: the concrete scenario text of the specification. -/
theorem metric_claim_deep_no_questions_witness :
    hasMetrics "Increased sales by 30% through targeted outreach" = true ∧
    (evaluate_defensibility "Increased sales by 30% through targeted outreach" =
        (0.9, "deep") ∧
      (create_claim_from_text "Increased sales by 30% through targeted outreach"
          "achievement").defensibility_score = 0.9 ∧
      (create_claim_from_text "Increased sales by 30% through targeted outreach"
          "achievement").depth_indicator = "deep" ∧
      (create_claim_from_text "Increased sales by 30% through targeted outreach"
          "achievement").consistency_risk = none ∧
      predict_interview_questions
        [create_claim_from_text "Increased sales by 30% through targeted outreach"
          "achievement"] = []) :=
  ⟨by decide,
   metric_claim_deep_no_questions "Increased sales by 30% through targeted outreach"
     (by decide)⟩

open RecommendationEngine

/-- C8: recommendation ranking sorts by the lexicographic key (priority
rank, descending absolute impact delta), permutes the input, and is
stable: every class of recommendations sharing both key components keeps
its generation order. -/
theorem rank_recommendations_sorted_stable (l : List Recommendation) :
    List.Sorted recLe (rank_recommendations l) ∧
    List.Perm (rank_recommendations l) l ∧
    ∀ k : Nat, ∀ q : ℚ,
      (rank_recommendations l).filter
          (fun rec => (priorityScore rec.priority == k) && (impactKey rec == q)) =
        l.filter
          (fun rec => (priorityScore rec.priority == k) && (impactKey rec == q)) := by
  refine ⟨List.sorted_insertionSort recLe l, List.perm_insertionSort recLe l, ?_⟩
  intro k q
  set p : Recommendation → Bool :=
    fun rec => (priorityScore rec.priority == k) && (impactKey rec == q) with hp
  have hkey : ∀ rec, p rec = true →
      priorityScore rec.priority = k ∧ impactKey rec = q := by
    intro rec h
    rw [hp] at h
    simp only [Bool.and_eq_true, beq_iff_eq] at h
    exact h
  have hpair : (l.filter p).Pairwise recLe := by
    apply List.pairwise_of_forall_mem_list
    intro a ha b hb
    obtain ⟨ka, qa⟩ := hkey a (List.of_mem_filter ha)
    obtain ⟨kb, qb⟩ := hkey b (List.of_mem_filter hb)
    exact Or.inr ⟨ka.trans kb.symm, le_of_eq (qb.trans qa.symm)⟩
  have hsub : List.Sublist (l.filter p) (rank_recommendations l) :=
    List.sublist_insertionSort hpair (List.filter_sublist l)
  have hsub2 : List.Sublist (l.filter p) ((rank_recommendations l).filter p) := by
    have := List.Sublist.filter p hsub
    rwa [List.filter_filter, show (fun a => p a && p a) = p from funext (fun a => Bool.and_self _)] at this
  have hperm : List.Perm ((rank_recommendations l).filter p) (l.filter p) :=
    List.Perm.filter p (List.perm_insertionSort recLe l)
  exact (hsub2.eq_of_length hperm.length_eq.symm).symm
open RecommendationEngine

/-- Witness: on two recommendations with equal priority and equal
absolute impact delta, ranking keeps generation order. -/
theorem rank_recommendations_sorted_stable_witness :
    List.Sorted recLe (rank_recommendations [recW1, recW2]) ∧
    List.Perm (rank_recommendations [recW1, recW2]) [recW1, recW2] ∧
    (rank_recommendations [recW1, recW2]).filter
        (fun rec => (priorityScore rec.priority == 1) && (impactKey rec == 10)) =
      [recW1, recW2].filter
        (fun rec => (priorityScore rec.priority == 1) && (impactKey rec == 10)) :=
  ⟨(rank_recommendations_sorted_stable [recW1, recW2]).1,
   (rank_recommendations_sorted_stable [recW1, recW2]).2.1,
   (rank_recommendations_sorted_stable [recW1, recW2]).2.2 1 10⟩

open AnalysisOrchestrator

theorem run_stage_statuses_self {α : Type} (impl : String → α → α × Bool)
    (clock : String → ℚ) (ctx : AnalysisContext α) (t : String) :
    (run_stage impl clock ctx t).stage_statuses t =
      some (if (impl t ctx.payload).2 then "failed" else "success") := by
  unfold run_stage fnSet
  simp

theorem run_stage_timings_self {α : Type} (impl : String → α → α × Bool)
    (clock : String → ℚ) (ctx : AnalysisContext α) (t : String) :
    (run_stage impl clock ctx t).stage_timings t = some (clock t) := by
  unfold run_stage fnSet
  simp

theorem run_stage_statuses_ne {α : Type} (impl : String → α → α × Bool)
    (clock : String → ℚ) (ctx : AnalysisContext α) (t s : String) (h : s ≠ t) :
    (run_stage impl clock ctx t).stage_statuses s = ctx.stage_statuses s := by
  unfold run_stage fnSet
  simp [h]

theorem run_stage_timings_ne {α : Type} (impl : String → α → α × Bool)
    (clock : String → ℚ) (ctx : AnalysisContext α) (t s : String) (h : s ≠ t) :
    (run_stage impl clock ctx t).stage_timings s = ctx.stage_timings s := by
  unfold run_stage fnSet
  simp [h]

theorem foldl_statuses_ne {α : Type} (impl : String → α → α × Bool)
    (clock : String → ℚ) (post : List String) (s : String) (h : s ∉ post) :
    ∀ ctx : AnalysisContext α,
      (post.foldl (run_stage impl clock) ctx).stage_statuses s =
        ctx.stage_statuses s := by
  induction post with
  | nil => exact fun _ => rfl
  | cons t ts ih =>
    intro ctx
    simp only [List.foldl_cons]
    have hst : s ≠ t := fun he => h (he ▸ List.mem_cons_self t ts)
    rw [ih (fun hm => h (List.mem_cons_of_mem t hm)),
      run_stage_statuses_ne impl clock ctx t s hst]

theorem foldl_timings_ne {α : Type} (impl : String → α → α × Bool)
    (clock : String → ℚ) (post : List String) (s : String) (h : s ∉ post) :
    ∀ ctx : AnalysisContext α,
      (post.foldl (run_stage impl clock) ctx).stage_timings s =
        ctx.stage_timings s := by
  induction post with
  | nil => exact fun _ => rfl
  | cons t ts ih =>
    intro ctx
    simp only [List.foldl_cons]
    have hst : s ≠ t := fun he => h (he ▸ List.mem_cons_self t ts)
    rw [ih (fun hm => h (List.mem_cons_of_mem t hm)),
      run_stage_timings_ne impl clock ctx t s hst]

/-- C9: every stage of the fixed pipeline list is attempted on every run.
A stage ends with status failed exactly when its body raised (on the
context produced by the stages before it) and success otherwise, the
orchestrator still runs every other stage (the conclusion holds for every
member of the list, whatever the implementations do), and a duration is
recorded for the stage unconditionally. -/
theorem orchestrator_stage_lifecycle {α : Type} (impl : String → α → α × Bool)
    (clock : String → ℚ) (ctx : AnalysisContext α) (s : String)
    (hs : s ∈ pipeline_stages) :
    ∃ pre post, pipeline_stages = pre ++ s :: post ∧
      (run impl clock ctx).stage_statuses s =
        some (if (impl s (pre.foldl (run_stage impl clock) ctx).payload).2
          then "failed" else "success") ∧
      (run impl clock ctx).stage_timings s = some (clock s) := by
  obtain ⟨pre, post, hsplit⟩ := List.append_of_mem hs
  refine ⟨pre, post, hsplit, ?_, ?_⟩
  · have hnodup : pipeline_stages.Nodup := by decide
    have hpost : s ∉ post := by
      rw [hsplit] at hnodup
      have := (List.nodup_append.mp hnodup).2.1
      exact (List.nodup_cons.mp this).1
    unfold run
    rw [hsplit, List.foldl_append, List.foldl_cons,
      foldl_statuses_ne impl clock post s hpost,
      run_stage_statuses_self]
  · have hnodup : pipeline_stages.Nodup := by decide
    have hpost : s ∉ post := by
      rw [hsplit] at hnodup
      have := (List.nodup_append.mp hnodup).2.1
      exact (List.nodup_cons.mp this).1
    unfold run
    rw [hsplit, List.foldl_append, List.foldl_cons,
      foldl_timings_ne impl clock post s hpost,
      run_stage_timings_self]

/-- Witness: with every stage body raising, the scoring stage is still
reached, marked failed, and timed. -/
theorem orchestrator_stage_lifecycle_witness :
    ∃ pre post, pipeline_stages = pre ++ "scoring" :: post ∧
      (run (fun _ (u : Unit) => (u, true)) (fun _ => 1)
          { payload := () }).stage_statuses "scoring" =
        some (if ((fun _ (u : Unit) => (u, true)) "scoring"
            (pre.foldl (run_stage (fun _ (u : Unit) => (u, true)) (fun _ => 1))
              { payload := () }).payload).2
          then "failed" else "success") ∧
      (run (fun _ (u : Unit) => (u, true)) (fun _ => 1)
          { payload := () }).stage_timings "scoring" = some 1 :=
  orchestrator_stage_lifecycle (fun _ (u : Unit) => (u, true)) (fun _ => 1)
    { payload := () } "scoring" (by decide)

theorem round2_mono {x y : ℚ} (h : x ≤ y) : round2 x ≤ round2 y := by
  unfold round2
  have h1 : round (x * 100) ≤ round (y * 100) := round_le_round (by linarith)
  have h2 : ((round (x * 100) : ℤ) : ℚ) ≤ ((round (y * 100) : ℤ) : ℚ) := by exact_mod_cast h1
  linarith

theorem reasons_suffix_keyword (r : ParsedResumeInternal)
    (jd : ParsedJobDescriptionInternal) (fv : FeatureVectorInternal)
    (reasons : List String) :
    ∃ suffix, (ATSSimulator.compute_keyword_matching r jd fv reasons).2 =
      reasons ++ suffix := by
  unfold ATSSimulator.compute_keyword_matching
  dsimp only
  split_ifs
  · exact ⟨[], by simp⟩
  · exact ⟨_, rfl⟩
  · exact ⟨[], by simp⟩

theorem score_le_80_of_experience_failed (result : ATSResultInternal)
    (hf : ATSHardFilters) (h1 : result.hard_filters = some hf)
    (h2 : hf.experience_met = some false) :
    ATSSimulator.calculate_compatibility_score result ≤ 80 := by
  unfold ATSSimulator.calculate_compatibility_score
  rw [h1]
  dsimp only
  rw [if_pos h2]
  have h80 : round2 80 = 80 := by norm_num [round2, round_eq]
  have hmin : result.keyword_match_percentage < 60 →
      0 ≤ min (60 - result.keyword_match_percentage) 20 :=
    fun hk => le_min (by linarith) (by norm_num)
  split_ifs with he hp hw hd hk <;>
    (apply max_le (by norm_num)
     refine le_trans (round2_mono ?_) (le_of_eq h80)) <;>
    first
      | (have hM := hmin (by assumption); linarith)
      | linarith

theorem check_hard_filters_of_some (fv : FeatureVectorInternal) (reasons : List String)
    (b c : Bool) (hb : fv.categorical.has_required_skills = some b)
    (hc : fv.categorical.has_required_degree = some c) :
    (ATSSimulator.check_hard_filters fv reasons).1 =
      { experience_met := some b, education_met := some c,
        certifications_met := none, all_met := some (b && c) } ∧
    (ATSSimulator.check_hard_filters fv reasons).2 =
      (reasons ++ (if !b then ["Hard filter failed: missing required skills"] else [])) ++
        (if !c then ["Hard filter failed: missing required education"] else []) := by
  unfold ATSSimulator.check_hard_filters
  rw [hb, hc]
  cases b <;> cases c <;> simp

theorem total_matched_eq_feature (r : ParsedResumeInternal)
    (jd : ParsedJobDescriptionInternal) (fv : FeatureVectorInternal)
    (reasons : List String) (n : Nat)
    (hkm : fv.quantitative.keyword_match_count = some n)
    (hzero : jd.required_skills = [] → n = 0) :
    (ATSSimulator.compute_keyword_matching r jd fv reasons).1.total_matched = n := by
  unfold ATSSimulator.compute_keyword_matching
  dsimp only
  split_ifs with h0 hlt
  · rw [hzero (by simpa using h0)]
  · dsimp only
    rw [hkm]
  · dsimp only
    rw [hkm]

theorem extract_quant_kmc (r : ParsedResumeInternal) (jd : ParsedJobDescriptionInternal) :
    jd.required_skills = [] →
      (FeatureExtractor.extract r jd).quantitative.keyword_match_count = some 0 := by
  intro h
  unfold FeatureExtractor.extract FeatureExtractor.compute_keyword_match_count
  dsimp only
  rw [if_pos (Or.inr h)]

theorem extract_hrs_false (r : ParsedResumeInternal) (jd : ParsedJobDescriptionInternal)
    (hsk : r.skills = []) :
    (FeatureExtractor.extract r jd).categorical.has_required_skills = some false := by
  unfold FeatureExtractor.extract
  dsimp only
  have h : ∀ fv, (FeatureExtractor.compute_has_required_skills r jd fv).1 = false := by
    intro fv
    unfold FeatureExtractor.compute_has_required_skills
    rw [if_pos (Or.inl hsk)]
  rw [h]


/-- C10: feature extraction always yields concrete values for all six
features (zero and false defaults when data is missing, never None), so
the ATS simulator always sees defined tri-state hard filters and the
feature vector count always overrides the locally computed keyword match
count; a job description with required skills and a resume with no skills
fails the experience hard filter, records the hard-filter rejection
reason, and caps the compatibility score at 80 (the 20-point
deduction). -/
theorem extract_defaults_feed_ats (r : ParsedResumeInternal)
    (jd : ParsedJobDescriptionInternal) (t : String) :
    ((FeatureExtractor.extract r jd).quantitative.years_experience.isSome = true ∧
     (FeatureExtractor.extract r jd).quantitative.skills_count.isSome = true ∧
     (FeatureExtractor.extract r jd).quantitative.keyword_match_count.isSome = true ∧
     (FeatureExtractor.extract r jd).quantitative.resume_length_words.isSome = true ∧
     (FeatureExtractor.extract r jd).categorical.has_required_skills.isSome = true ∧
     (FeatureExtractor.extract r jd).categorical.has_required_degree.isSome = true) ∧
    (∃ hf, (ATSSimulator.simulate r jd (FeatureExtractor.extract r jd) t).hard_filters =
        some hf ∧
      hf.experience_met.isSome = true ∧ hf.education_met.isSome = true ∧
      hf.all_met.isSome = true) ∧
    (ATSSimulator.simulate r jd (FeatureExtractor.extract r jd) t).keyword_breakdown.total_matched =
      ((FeatureExtractor.extract r jd).quantitative.keyword_match_count).getD 0 ∧
    (jd.required_skills ≠ [] → r.skills = [] →
      (∃ hf, (ATSSimulator.simulate r jd (FeatureExtractor.extract r jd) t).hard_filters =
          some hf ∧ hf.experience_met = some false) ∧
      "Hard filter failed: missing required skills" ∈
        (ATSSimulator.simulate r jd (FeatureExtractor.extract r jd) t).rejection_reasons ∧
      (ATSSimulator.simulate r jd (FeatureExtractor.extract r jd) t).compatibility_score ≤ 80) := by
  have hsome : (FeatureExtractor.extract r jd).quantitative.years_experience.isSome = true ∧
      (FeatureExtractor.extract r jd).quantitative.skills_count.isSome = true ∧
      (FeatureExtractor.extract r jd).quantitative.keyword_match_count.isSome = true ∧
      (FeatureExtractor.extract r jd).quantitative.resume_length_words.isSome = true ∧
      (FeatureExtractor.extract r jd).categorical.has_required_skills.isSome = true ∧
      (FeatureExtractor.extract r jd).categorical.has_required_degree.isSome = true := by
    unfold FeatureExtractor.extract
    exact ⟨rfl, rfl, rfl, rfl, rfl, rfl⟩
  set fv := FeatureExtractor.extract r jd with hfv
  obtain ⟨b, hb⟩ := Option.isSome_iff_exists.mp hsome.2.2.2.2.1
  obtain ⟨c, hc⟩ := Option.isSome_iff_exists.mp hsome.2.2.2.2.2
  obtain ⟨n, hn⟩ := Option.isSome_iff_exists.mp hsome.2.2.1
  obtain ⟨hf1, hf2⟩ := check_hard_filters_of_some fv
    (ATSSimulator.check_required_fields r []).2 b c hb hc
  have hhf : (ATSSimulator.simulate r jd fv t).hard_filters =
      some (ATSSimulator.check_hard_filters fv
        (ATSSimulator.check_required_fields r []).2).1 := rfl
  have hkb : (ATSSimulator.simulate r jd fv t).keyword_breakdown =
      (ATSSimulator.compute_keyword_matching r jd fv
        (ATSSimulator.check_hard_filters fv
          (ATSSimulator.check_required_fields r []).2).2).1 := rfl
  have hrr : (ATSSimulator.simulate r jd fv t).rejection_reasons =
      (ATSSimulator.compute_keyword_matching r jd fv
        (ATSSimulator.check_hard_filters fv
          (ATSSimulator.check_required_fields r []).2).2).2 := rfl
  refine ⟨hsome, ⟨_, hhf, ?_, ?_, ?_⟩, ?_, ?_⟩
  · rw [hf1]
    rfl
  · rw [hf1]
    rfl
  · rw [hf1]
    rfl
  · rw [hkb, hn]
    exact total_matched_eq_feature r jd fv _ n hn
      (fun hreq => by
        have := extract_quant_kmc r jd hreq
        rw [← hfv] at this
        rw [this] at hn
        exact (Option.some_inj.mp hn).symm)
  · intro hreq hsk
    have hbfalse : b = false := by
      have := extract_hrs_false r jd hsk
      rw [← hfv] at this
      rw [this] at hb
      exact (Option.some_inj.mp hb).symm
    subst hbfalse
    refine ⟨⟨_, hhf, by rw [hf1]⟩, ?_, ?_⟩
    · rw [hrr]
      obtain ⟨suffix, hsuf⟩ := reasons_suffix_keyword r jd fv
        (ATSSimulator.check_hard_filters fv
          (ATSSimulator.check_required_fields r []).2).2
      rw [hsuf, hf2]
      simp
    · have hcs : (ATSSimulator.simulate r jd fv t).compatibility_score =
          ATSSimulator.calculate_compatibility_score
            { keyword_match_percentage := ATSSimulator.calculate_keyword_match_percentage
                (ATSSimulator.compute_keyword_matching r jd fv
                  (ATSSimulator.check_hard_filters fv
                    (ATSSimulator.check_required_fields r []).2).2).1
              required_fields_status := (ATSSimulator.check_required_fields r []).1
              hard_filters := some (ATSSimulator.check_hard_filters fv
                (ATSSimulator.check_required_fields r []).2).1
              keyword_breakdown := (ATSSimulator.compute_keyword_matching r jd fv
                (ATSSimulator.check_hard_filters fv
                  (ATSSimulator.check_required_fields r []).2).2).1
              rejection_reasons := (ATSSimulator.compute_keyword_matching r jd fv
                (ATSSimulator.check_hard_filters fv
                  (ATSSimulator.check_required_fields r []).2).2).2
              ats_type := some t } := rfl
      rw [hcs]
      exact score_le_80_of_experience_failed _ _ rfl (by rw [hf1])


/-- Witness: a job description requiring python and a resume with no
skills fails the experience hard filter with its reason and deduction. -/
theorem extract_defaults_feed_ats_witness :
    (∃ hf, (ATSSimulator.simulate rC2 jdC2 (FeatureExtractor.extract rC2 jdC2)
        "generic").hard_filters = some hf ∧ hf.experience_met = some false) ∧
    "Hard filter failed: missing required skills" ∈
      (ATSSimulator.simulate rC2 jdC2 (FeatureExtractor.extract rC2 jdC2)
        "generic").rejection_reasons ∧
    (ATSSimulator.simulate rC2 jdC2 (FeatureExtractor.extract rC2 jdC2)
        "generic").compatibility_score ≤ 80 :=
  (extract_defaults_feed_ats rC2 jdC2 "generic").2.2.2 (by decide) rfl

/-- C6: two runs of any core evaluator on identical input structures
yield identical outputs.  Each evaluator is embedded as a pure function
of its inputs: the sources contain no randomness or clock reads (the only
within-process nondeterminism candidate, Python set iteration in the
interview evaluator, is fixed for the lifetime of a process and is
modelled by the deterministic first-insertion order). -/
theorem evaluators_deterministic :
    (∀ r₁ r₂ : ParsedResumeInternal, ∀ jd₁ jd₂ : ParsedJobDescriptionInternal,
      r₁ = r₂ → jd₁ = jd₂ →
      FeatureExtractor.extract r₁ jd₁ = FeatureExtractor.extract r₂ jd₂) ∧
    (∀ r₁ r₂ : ParsedResumeInternal, ∀ jd₁ jd₂ : ParsedJobDescriptionInternal,
      ∀ fv₁ fv₂ : FeatureVectorInternal, ∀ t₁ t₂ : String,
      r₁ = r₂ → jd₁ = jd₂ → fv₁ = fv₂ → t₁ = t₂ →
      ATSSimulator.simulate r₁ jd₁ fv₁ t₁ = ATSSimulator.simulate r₂ jd₂ fv₂ t₂) ∧
    (∀ r₁ r₂ : ParsedResumeInternal, ∀ fv₁ fv₂ : FeatureVectorInternal,
      ∀ p₁ p₂ : String, r₁ = r₂ → fv₁ = fv₂ → p₁ = p₂ →
      RecruiterEvaluator.evaluate r₁ fv₁ p₁ = RecruiterEvaluator.evaluate r₂ fv₂ p₂) ∧
    (∀ r₁ r₂ : ParsedResumeInternal, ∀ fv₁ fv₂ : FeatureVectorInternal,
      r₁ = r₂ → fv₁ = fv₂ →
      InterviewReadinessEvaluator.evaluate r₁ fv₁ = InterviewReadinessEvaluator.evaluate r₂ fv₂) ∧
    (∀ a₁ a₂ : ATSResultInternal, ∀ rr₁ rr₂ : RecruiterResultInternal,
      ∀ i₁ i₂ : InterviewReadinessResultInternal,
      a₁ = a₂ → rr₁ = rr₂ → i₁ = i₂ →
      ScoreAggregator.aggregate a₁ rr₁ i₁ = ScoreAggregator.aggregate a₂ rr₂ i₂) ∧
    (∀ a₁ a₂ : ATSResultInternal, ∀ rr₁ rr₂ : RecruiterResultInternal,
      ∀ i₁ i₂ : InterviewReadinessResultInternal,
      ∀ g₁ g₂ : AggregatedScoreInternal,
      a₁ = a₂ → rr₁ = rr₂ → i₁ = i₂ → g₁ = g₂ →
      ExplainabilityEngine.explain a₁ rr₁ i₁ g₁ = ExplainabilityEngine.explain a₂ rr₂ i₂ g₂) := by
  refine ⟨?_, ?_, ?_, ?_, ?_, ?_⟩
  · intro r₁ r₂ jd₁ jd₂ h1 h2
    rw [h1, h2]
  · intro r₁ r₂ jd₁ jd₂ fv₁ fv₂ t₁ t₂ h1 h2 h3 h4
    rw [h1, h2, h3, h4]
  · intro r₁ r₂ fv₁ fv₂ p₁ p₂ h1 h2 h3
    rw [h1, h2, h3]
  · intro r₁ r₂ fv₁ fv₂ h1 h2
    rw [h1, h2]
  · intro a₁ a₂ rr₁ rr₂ i₁ i₂ h1 h2 h3
    rw [h1, h2, h3]
  · intro a₁ a₂ rr₁ rr₂ i₁ i₂ g₁ g₂ h1 h2 h3 h4
    rw [h1, h2, h3, h4]

/-- Witness: the six determinism statements instantiated at concrete
equal inputs. -/
theorem evaluators_deterministic_witness :
    FeatureExtractor.extract rC2 jdC2 = FeatureExtractor.extract rC2 jdC2 ∧
    ATSSimulator.simulate rC2 jdC2 {} "generic" = ATSSimulator.simulate rC2 jdC2 {} "generic" ∧
    RecruiterEvaluator.evaluate rC2 {} "generic" = RecruiterEvaluator.evaluate rC2 {} "generic" ∧
    InterviewReadinessEvaluator.evaluate rC2 {} = InterviewReadinessEvaluator.evaluate rC2 {} ∧
    ScoreAggregator.aggregate atsC3 recC3 intC3 = ScoreAggregator.aggregate atsC3 recC3 intC3 ∧
    ExplainabilityEngine.explain atsC3 recC3 intC3 {} =
      ExplainabilityEngine.explain atsC3 recC3 intC3 {} :=
  ⟨evaluators_deterministic.1 rC2 rC2 jdC2 jdC2 rfl rfl,
   evaluators_deterministic.2.1 rC2 rC2 jdC2 jdC2 {} {} "generic" "generic" rfl rfl rfl rfl,
   evaluators_deterministic.2.2.1 rC2 rC2 {} {} "generic" "generic" rfl rfl rfl,
   evaluators_deterministic.2.2.2.1 rC2 rC2 {} {} rfl rfl,
   evaluators_deterministic.2.2.2.2.1 atsC3 atsC3 recC3 recC3 intC3 intC3 rfl rfl rfl,
   evaluators_deterministic.2.2.2.2.2 atsC3 atsC3 recC3 recC3 intC3 intC3 {} {} rfl rfl rfl rfl⟩

end HireLens
